import Mathlib

/-!
Verification development for the tm-chatapp-backend repository.

The definitions below are a shallow embedding of the real-time chat core:
the socket.io connection middleware (src/services/socket.js, io.use),
the socket event handlers (sendMessage, typing, stopTyping, joinRoom,
leaveRoom, deleteRoom, disconnect), and the controller functions
(src/controller/message.controller.js: handleSendMessage,
handleEditMessage, handleLeaveRoom, handleDeleteRoom;
src/controller/voiceController.js: deleteS3VoicesByRoom;
src/controller/filleController.js: deleteS3FilesByRoom).

Modelling conventions:
* MongoDB collections are lists of documents; findOne is List.find?,
  updateOne / deleteOne / deleteMany are mapped / filtered lists.
* ObjectId values are strings; ObjectId.isValid is the 24-hex-digit check.
* Dates are natural numbers (server timestamps).
* socket.io emissions are reified as a trace of Action values so that
  ordering and addressing of events can be stated.
* jwt.verify is modelled by a Token that either fails verification
  (Token.invalid, the thrown JsonWebTokenError path) or yields its payload.
* The S3 object store is the list of stored object keys; DeleteObjects
  removes the requested keys.
-/

namespace TmChat

/-- The three principal kinds, as derived from which credential cookie
authenticated the connection (socket.js io.use). -/
inductive Role where
  | user
  | admin
  | client
deriving DecidableEq, Repr

/-- The identity bound to a connection by the auth middleware
(socket.user in socket.js). -/
structure SocketUser where
  userId : String
  role : Role
  position : String
  firstName : Option String
  companyId : String
deriving DecidableEq, Repr

/-- A document of one of the three principal collections
(users / admins / clients), restricted to the projected fields. -/
structure PrincipalDoc where
  oid : String
  position : Option String
  firstName : Option String
  fullName : Option String
  name : Option String
  companyId : Option String
  email : Option String
deriving DecidableEq, Repr

/-- Voice attachment metadata stored on a message (voiceController.js). -/
structure VoiceMeta where
  s3Key : String
deriving DecidableEq, Repr

/-- File attachment metadata stored on a message (filleController.js). -/
structure FileMeta where
  s3Key : String
deriving DecidableEq, Repr

/-- A document of the messages collection. -/
structure MessageDoc where
  oid : String
  userId : String
  username : String
  message : String
  roomId : String
  companyId : String
  timestamp : Nat
  updatedAt : Option Nat
  voice : Option VoiceMeta
  file : Option FileMeta
deriving DecidableEq, Repr

/-- A document of the rooms collection. -/
structure RoomDoc where
  roomId : String
  roomName : String
  users : List String
  creator : String
  companyId : String
deriving DecidableEq, Repr

/-- The document store: three principal collections plus rooms and
messages (services/db.js collections). -/
structure Db where
  users : List PrincipalDoc
  admins : List PrincipalDoc
  clients : List PrincipalDoc
  rooms : List RoomDoc
  messages : List MessageDoc
deriving DecidableEq, Repr

/-- The S3 object store, as the list of stored object keys. -/
abbrev S3 := List String

/-- The payload carried by a verified JWT. -/
structure JwtPayload where
  id : Option String
  userId : Option String
  clientId : Option String
  adminId : Option String
  position : Option String
  companyId : Option String
  firstName : Option String
deriving DecidableEq, Repr

/-- A presented credential: jwt.verify either throws (invalid) or
returns the payload. -/
inductive Token where
  | invalid
  | valid (payload : JwtPayload)
deriving DecidableEq, Repr

/-- The cookie jar parsed from the connection handshake: the three
credential cookies read by the socket middleware
(cookies.token / cookies.admintoken / cookies.clientToken). -/
structure CookieJar where
  token : Option Token
  admintoken : Option Token
  clientToken : Option Token
deriving DecidableEq, Repr

/-- JavaScript String.prototype.trim: strip leading and trailing
whitespace (defined over the character list so that it reduces in the
kernel). -/
def jsTrim (s : String) : String :=
  String.mk (((s.toList.dropWhile Char.isWhitespace).reverse.dropWhile
    Char.isWhitespace).reverse)

/-- JavaScript String.prototype.toLowerCase (over the character list). -/
def lowerStr (s : String) : String := String.mk (s.toList.map Char.toLower)

/-- ObjectId.isValid, for the 24-character hex-string form of ObjectIds
used throughout the routes. -/
def objectIdIsValid (s : String) : Bool :=
  s.toList.length == 24 && s.toList.all (fun c =>
    c.isDigit || ("abcdefABCDEF".toList.contains c))

/-- find? over the rooms collection by roomId (findOne { roomId }). -/
def findRoom (db : Db) (roomId : String) : Option RoomDoc :=
  db.rooms.find? (fun r => r.roomId == roomId)

/-- JavaScript a || b on optional strings: the first operand that is
present and non-empty. -/
def orElseStr (a b : Option String) : Option String :=
  match a with
  | some s => if s == "" then b else some s
  | none => b

/-- JavaScript x.startsWith(p). -/
def strStartsWith (s p : String) : Bool := p.toList.isPrefixOf s.toList

/-! ## Identity resolver at connection time (socket.js io.use) -/

/-- Authentication middleware failure: the connection is refused with the
given reason (next(new Error(...))). -/
inductive AuthErr where
  | refused (reason : String)
deriving DecidableEq, Repr

/-- The list of allowed normalized positions in the socket middleware. -/
def allowedPositions : List String :=
  ["employee", "ceo", "manager", "hr", "client", "teamleader", "admin"]

/-- The principal collection the middleware queries for a given role
(collectionMap in socket.js). -/
def collectionOf (db : Db) (r : Role) : List PrincipalDoc :=
  match r with
  | Role.user => db.users
  | Role.admin => db.admins
  | Role.client => db.clients

/-- Resolution of one verified credential of a given role: extract the
identifier (decoded.id || decoded.userId || decoded.clientId ||
decoded.adminId), look it up in the single collection for that role,
and validate the normalized position (socket.js io.use, after token
selection). -/
def resolveWithToken (db : Db) (role : Role) (d : JwtPayload) :
    Except AuthErr SocketUser :=
  match orElseStr d.id (orElseStr d.userId (orElseStr d.clientId d.adminId)) with
  | none => Except.error (AuthErr.refused "Invalid token structure, ID not found")
  | some idKey =>
    if objectIdIsValid idKey then
      match (collectionOf db role).find? (fun u => u.oid == idKey) with
      | none => Except.error (AuthErr.refused "User not found, authorization denied")
      | some u =>
        match (orElseStr u.position d.position).map lowerStr with
        | none => Except.error
            (AuthErr.refused "Authorization error: Invalid or unauthorized role")
        | some pos =>
          if allowedPositions.contains pos then
            Except.ok
              { userId := idKey
                role := role
                position := pos
                firstName := orElseStr u.firstName
                  (orElseStr u.name (orElseStr u.fullName d.firstName))
                companyId := (orElseStr u.companyId d.companyId).getD "" }
          else
            Except.error
              (AuthErr.refused "Authorization error: Invalid or unauthorized role")
    else
      Except.error (AuthErr.refused "Invalid user ID format")

/-- The token selection loop of the middleware: the first present cookie,
taken in the fixed order admintoken, then token, then clientToken
(the tokenMap array in socket.js). -/
def firstCookie (jar : CookieJar) : Option (Token × Role) :=
  match jar.admintoken with
  | some t => some (t, Role.admin)
  | none =>
    match jar.token with
    | some t => some (t, Role.user)
    | none =>
      match jar.clientToken with
      | some t => some (t, Role.client)
      | none => none

/-- The socket.io authentication middleware (io.use in socket.js):
parse the cookies, verify the first present credential cookie, and
resolve the identity against the single collection selected by that
cookie's role. A missing cookie header, a missing token, a failed
verification, or a failed lookup refuses the connection. -/
def socketAuth (db : Db) (cookieHeader : Option CookieJar) :
    Except AuthErr SocketUser :=
  match cookieHeader with
  | none => Except.error (AuthErr.refused "Invalid cookie header")
  | some jar =>
    match firstCookie jar with
    | none => Except.error (AuthErr.refused "Authentication token missing")
    | some (Token.invalid, _) =>
      Except.error (AuthErr.refused "Authentication error: jwt verification failed")
    | some (Token.valid d, role) => resolveWithToken db role d

/-! ## Wire shapes and emission traces -/

/-- The newMessage wire shape constructed in handleSendMessage
(message.controller.js) and in the socket sendMessage handler.
companyName is none when the persisted document carries no such field,
matching savedMessage.companyName being undefined. -/
structure MsgWire where
  oid : String
  userId : String
  username : String
  message : String
  roomId : String
  companyId : String
  timestamp : Nat
  companyName : Option String
deriving DecidableEq, Repr

/-- One presence entry { userId, username } of onlineUsersByRoom. -/
structure PresEntry where
  userId : String
  username : String
deriving DecidableEq, Repr

/-- Server-to-client events emitted by the modelled handlers. -/
inductive Ev where
  | newMessage (m : MsgWire)
  | errorMessage (s : String)
  | userTyping (userId username roomId : String)
  | userStoppedTyping (userId roomId : String)
  | onlineUsersFull (users : List PresEntry) (roomId : String)
  | onlineUsersCount (n : Nat) (roomId : String)
  | joinConfirmation (roomId roomName : String) (users : List PresEntry)
  | userJoined (e : PresEntry) (roomId : String)
  | messageUpdated (oid userId message roomId : String)
      (timestamp updatedAt : Nat)
  | roomLeft (roomId userId : String)
  | userLeftRoom (userId username roomId roomName : String)
  | roomDeleted (roomId userId : String)
deriving DecidableEq, Repr

/-- One step of a handler run: a persistence write (successful insert),
a failed persistence write attempt, or an emission addressed to one
connected socket. -/
inductive Action where
  | persist (m : MessageDoc)
  | persistFail
  | emit (sid : String) (e : Ev)
deriving DecidableEq, Repr

/-- Whether an action is a newMessage emission. -/
def Action.isNewMessage : Action → Bool
  | Action.emit _ (Ev.newMessage _) => true
  | _ => false

/-- The events a trace delivers to one socket id. -/
def deliveredTo : List Action → String → List Ev
  | [], _ => []
  | Action.emit s e :: tl, sid =>
    if s == sid then e :: deliveredTo tl sid else deliveredTo tl sid
  | Action.persist _ :: tl, sid => deliveredTo tl sid
  | Action.persistFail :: tl, sid => deliveredTo tl sid

/-! ## In-memory room cache and presence -/

/-- One entry of the in-memory rooms map in socket.js
(Map of roomId to { roomName, users, creator }). -/
structure CacheRoom where
  roomName : String
  users : List String
  creator : String
deriving DecidableEq, Repr

/-- The in-memory rooms map. -/
abbrev RoomsCache := List (String × CacheRoom)

/-- rooms.get(roomId) on the cache. -/
def cacheGet (c : RoomsCache) (roomId : String) : Option CacheRoom :=
  (List.find? (fun p => p.1 == roomId) c).map Prod.snd

/-- isUserInRoom in socket.js: rooms.get(roomId)?.users.includes(userId);
an absent cache entry is falsy. -/
def isUserInRoom (c : RoomsCache) (roomId userId : String) : Bool :=
  match cacheGet c roomId with
  | some r => r.users.contains userId
  | none => false

/-! ## sendMessage: controller plus socket handler (C2, C6) -/

/-- What the JavaScript handleSendMessage call evaluates to for its
caller: the validation branches return the (truthy) result of
socket.emit, while the success path and the catch path fall through
with no return statement, i.e. undefined. -/
inductive CtrlRet where
  | truthy
  | undef
deriving DecidableEq, Repr

/-- Result of running the send path: the action trace, the store after,
and the value handleSendMessage returned to the socket handler. -/
structure SendOut where
  trace : List Action
  db : Db
  ret : CtrlRet
deriving Repr

/-- The formattedMessage document persisted by handleSendMessage: the
author's id, display name (firstName with the Anonymous fallback), the
trimmed body, the target room, the author's company, and the server
timestamp. -/
def sentDoc (user : SocketUser) (message targetRoom newId : String)
    (now : Nat) : MessageDoc :=
  { oid := newId
    userId := user.userId
    username := user.firstName.getD "Anonymous"
    message := jsTrim message
    roomId := targetRoom
    companyId := user.companyId
    timestamp := now
    updatedAt := none
    voice := none
    file := none }

/-- The messageToSend wire shape handleSendMessage emits: the persisted
document with the assigned id; it has no companyName field. -/
def sentWire (user : SocketUser) (message targetRoom newId : String)
    (now : Nat) : MsgWire :=
  { oid := newId
    userId := user.userId
    username := user.firstName.getD "Anonymous"
    message := jsTrim message
    roomId := targetRoom
    companyId := user.companyId
    timestamp := now
    companyName := none }

/-- handleSendMessage of message.controller.js: validate the body and the
target room, persist the formatted message, then emit the saved shape to
every socket of the target room (socket.to(targetRoom) for the others,
socket.emit for the sender). A failed insert is caught and reported to
the sender only. The insert outcome is passed in as insertOutcome
(ok with the assigned ObjectId string, or error). The function body has
no final return, so its caller sees CtrlRet.undef on the success and
catch paths and CtrlRet.truthy from the early-return validation
branches. -/
def handleSendMessage (db : Db) (senderSid : String) (user : SocketUser)
    (roomGroup : List (String × SocketUser)) (message targetRoom : String)
    (insertOutcome : Except Unit String) (now : Nat) : SendOut :=
  if jsTrim message == "" then
    { trace := [Action.emit senderSid
        (Ev.errorMessage "Message is required and must be a non-empty string")]
      db := db, ret := CtrlRet.truthy }
  else if targetRoom == "" then
    { trace := [Action.emit senderSid (Ev.errorMessage "Target room is required")]
      db := db, ret := CtrlRet.truthy }
  else
    match insertOutcome with
    | Except.error _ =>
      { trace := [Action.persistFail,
          Action.emit senderSid (Ev.errorMessage "Server error while sending message")]
        db := db, ret := CtrlRet.undef }
    | Except.ok newId =>
      let doc := sentDoc user message targetRoom newId now
      let wire := sentWire user message targetRoom newId now
      let others := roomGroup.filter (fun p => p.1 != senderSid)
      { trace := Action.persist doc ::
          (others.map (fun p => Action.emit p.1 (Ev.newMessage wire)) ++
            [Action.emit senderSid (Ev.newMessage wire)])
        db := { db with messages := db.messages ++ [doc] }
        ret := CtrlRet.undef }

/-- The room a socket sendMessage targets: the currentRoom argument, or
the active room (getActiveRoom) when it is absent. -/
def resolvedRoom (currentRoom activeRoom : String) : String :=
  if currentRoom == "" then activeRoom else currentRoom

/-- The socket sendMessage handler (socket.js): resolve the room (the
currentRoom argument, or the active room when it is empty), check
membership against the in-memory cache unless the target is the company
room, then call handleSendMessage. Whatever that call returns, the
handler ends in its catch with an errorMessage to the sender: on the
success and persistence-failure paths handleSendMessage returned
undefined and the explicit !savedMessage throw fires, and on the
validation paths the truthy socket.emit return value crashes at
savedMessage.companyId.toString(). The per-recipient role-shaping loop
below those lines is therefore never reached. -/
def sendMessageHandler (db : Db) (cache : RoomsCache) (senderSid : String)
    (user : SocketUser) (roomGroup : List (String × SocketUser))
    (message currentRoom activeRoom : String)
    (insertOutcome : Except Unit String) (now : Nat) : SendOut :=
  let roomId := resolvedRoom currentRoom activeRoom
  let companyRoom := "company_" ++ user.companyId
  if roomId != companyRoom && !(isUserInRoom cache roomId user.userId) then
    { trace := [Action.emit senderSid (Ev.errorMessage "Unauthorized room access.")]
      db := db, ret := CtrlRet.undef }
  else
    let c := handleSendMessage db senderSid user roomGroup message roomId
      insertOutcome now
    { c with trace := c.trace ++
        [Action.emit senderSid (Ev.errorMessage "Error sending message.")] }

/-! ## editMessage (C7) -/

/-- Result of running handleEditMessage: the store after and the trace. -/
structure EditOut where
  trace : List Action
  db : Db
deriving Repr

/-- handleEditMessage of message.controller.js: validate the id, the new
body and the target room; find the message by id and room; require the
editor to be the original author; then updateOne sets message to the
trimmed new body and updatedAt to the current date, leaving every other
field of the document alone; finally broadcast messageUpdated to the
room and echo it to the editor. -/
def handleEditMessage (db : Db) (senderSid : String) (user : SocketUser)
    (roomGroup : List (String × SocketUser))
    (messageId newMessage targetRoom : String) (now : Nat) : EditOut :=
  if !(objectIdIsValid messageId) then
    { trace := [Action.emit senderSid (Ev.errorMessage "Invalid or missing message ID")]
      db := db }
  else if jsTrim newMessage == "" then
    { trace := [Action.emit senderSid
        (Ev.errorMessage "New message is required and must be a non-empty string")]
      db := db }
  else if targetRoom == "" then
    { trace := [Action.emit senderSid (Ev.errorMessage "Target room is required")]
      db := db }
  else
    match db.messages.find? (fun m => m.oid == messageId && m.roomId == targetRoom) with
    | none =>
      { trace := [Action.emit senderSid (Ev.errorMessage "Message not found in this room")]
        db := db }
    | some m =>
      if m.userId != user.userId then
        { trace := [Action.emit senderSid
            (Ev.errorMessage "You are not authorized to edit this message")]
          db := db }
      else
        let db' :=
          { db with messages := db.messages.map (fun x =>
              if x.oid == messageId && x.roomId == targetRoom then
                { x with message := jsTrim newMessage, updatedAt := some now }
              else x) }
        let ev := Ev.messageUpdated messageId user.userId (jsTrim newMessage)
          targetRoom m.timestamp now
        { trace := (roomGroup.filter (fun p => p.1 != senderSid)).map
            (fun p => Action.emit p.1 ev) ++ [Action.emit senderSid ev]
          db := db' }

/-! ## typing and stopTyping (C3) -/

/-- The typing handler (socket.js): after checking that the payload
userId matches the connection's identity and that the typer is a member
of the room per the cache, emit userTyping to every socket of the
room's transport group other than the typer whose user role is not
client. -/
def typingHandler (cache : RoomsCache) (typerSid : String) (user : SocketUser)
    (roomGroup : List (String × SocketUser))
    (payloadRoomId payloadUserId : String) : List Action :=
  if user.userId != payloadUserId then []
  else if payloadRoomId == "" || !(isUserInRoom cache payloadRoomId user.userId) then []
  else
    (roomGroup.filter (fun p => p.1 != typerSid && p.2.role != Role.client)).map
      (fun p => Action.emit p.1
        (Ev.userTyping user.userId (user.firstName.getD "Anonymous") payloadRoomId))

/-- The stopTyping handler (socket.js): after the same two checks, emit
userStoppedTyping carrying the typer's userId to every socket of the
room other than the typer, with no role filter
(socket.to(roomId).emit). -/
def stopTypingHandler (cache : RoomsCache) (typerSid : String) (user : SocketUser)
    (roomGroup : List (String × SocketUser))
    (payloadRoomId payloadUserId : String) : List Action :=
  if user.userId != payloadUserId then []
  else if payloadRoomId == "" || !(isUserInRoom cache payloadRoomId user.userId) then []
  else
    (roomGroup.filter (fun p => p.1 != typerSid)).map
      (fun p => Action.emit p.1 (Ev.userStoppedTyping user.userId payloadRoomId))

/-! ## Presence, joinRoom and disconnect (C3, C8) -/

/-- The in-memory state of the socket layer: the rooms cache, the
per-room presence map onlineUsersByRoom, the transport adapter (which
socket ids are joined to which room), and the registry of live sockets
with their bound users. -/
structure Net where
  cache : RoomsCache
  presence : List (String × List PresEntry)
  adapter : List (String × List String)
  socks : List (String × SocketUser)
deriving DecidableEq, Repr

/-- Presence entries of one room (onlineUsersByRoom.get(roomId)), with
none for an absent per-room map. -/
def presGet (st : Net) (roomId : String) : Option (List PresEntry) :=
  (st.presence.find? (fun p => p.1 == roomId)).map Prod.snd

/-- Map.set on one room's presence map, keyed by userId. -/
def presEntriesSet (es : List PresEntry) (e : PresEntry) : List PresEntry :=
  if es.any (fun x => x.userId == e.userId) then
    es.map (fun x => if x.userId == e.userId then e else x)
  else es ++ [e]

/-- onlineUsersByRoom.get(roomId).set(userId, entry), creating the
per-room map when absent (the has/set pair in the joinRoom handler). -/
def presSet (st : Net) (roomId : String) (e : PresEntry) : Net :=
  match presGet st roomId with
  | some _ =>
    { st with presence := st.presence.map (fun p =>
        if p.1 == roomId then (p.1, presEntriesSet p.2 e) else p) }
  | none => { st with presence := st.presence ++ [(roomId, [e])] }

/-- onlineUsersByRoom.get(roomId).delete(userId). -/
def presDeleteUser (st : Net) (roomId userId : String) : Net :=
  { st with presence := st.presence.map (fun p =>
      if p.1 == roomId then (p.1, p.2.filter (fun x => x.userId != userId)) else p) }

/-- onlineUsersByRoom.delete(roomId): discard a whole per-room map. -/
def presDeleteRoom (st : Net) (roomId : String) : Net :=
  { st with presence := st.presence.filter (fun p => p.1 != roomId) }

/-- The socket ids joined to a room in the transport adapter
(io.sockets.adapter.rooms.get(roomId)). -/
def adapterGet (st : Net) (roomId : String) : List String :=
  ((st.adapter.find? (fun p => p.1 == roomId)).map Prod.snd).getD []

/-- socket.join(roomId) at the adapter level. -/
def adapterJoin (st : Net) (roomId sid : String) : Net :=
  match st.adapter.find? (fun p => p.1 == roomId) with
  | some _ =>
    { st with adapter := st.adapter.map (fun p =>
        if p.1 == roomId then
          (p.1, if p.2.contains sid then p.2 else p.2 ++ [sid])
        else p) }
  | none => { st with adapter := st.adapter ++ [(roomId, [sid])] }

/-- Removal of a socket id from every adapter room (what the transport
does when a socket disconnects, before the disconnect event handler
runs). -/
def adapterDropSock (st : Net) (sid : String) : Net :=
  { st with adapter := st.adapter.map (fun p =>
      (p.1, p.2.filter (fun s => s != sid))) }

/-- The transport group of a room resolved to (socket id, bound user)
pairs via io.sockets.sockets.get. -/
def groupOf (st : Net) (roomId : String) : List (String × SocketUser) :=
  (adapterGet st roomId).filterMap (fun sid =>
    ((st.socks.find? (fun p => p.1 == sid)).map Prod.snd).map (fun u => (sid, u)))

/-- The onlineUsersUpdate fan-out repeated in the joinRoom, leaveRoom and
disconnect handlers: every socket of the room receives the update, a
client-role recipient receiving only the count and every other
recipient the full entry list. -/
def broadcastOnlineUsers (group : List (String × SocketUser))
    (onlineUsers : List PresEntry) (roomId : String) : List Action :=
  group.map (fun p =>
    if p.2.role == Role.client then
      Action.emit p.1 (Ev.onlineUsersCount onlineUsers.length roomId)
    else
      Action.emit p.1 (Ev.onlineUsersFull onlineUsers roomId))

/-- The joinRoom handler (socket.js): reject when the cached room is
absent or the user is not in its member list; otherwise join the
transport room, write the presence entry, send joinConfirmation to the
joiner (an empty user list for a client), emit userJoined to the
non-client members of the group other than the joiner, and fan out
onlineUsersUpdate to the whole group. -/
def joinRoomHandler (st : Net) (sid : String) (user : SocketUser)
    (roomId : String) : Net × List Action :=
  match cacheGet st.cache roomId with
  | none => (st, [Action.emit sid (Ev.errorMessage "Unauthorized or non-existent room.")])
  | some room =>
    if !(room.users.contains user.userId) then
      (st, [Action.emit sid (Ev.errorMessage "Unauthorized or non-existent room.")])
    else
      let st1 := adapterJoin st roomId sid
      let entry : PresEntry :=
        { userId := user.userId, username := user.firstName.getD "Anonymous" }
      let st2 := presSet st1 roomId entry
      let onlineUsers := (presGet st2 roomId).getD []
      let group := groupOf st2 roomId
      let confirmation := Action.emit sid (Ev.joinConfirmation roomId room.roomName
        (if user.role == Role.client then [] else onlineUsers))
      let joinedEvs := (group.filter (fun p =>
          p.2.role != Role.client && p.2.userId != user.userId)).map
        (fun p => Action.emit p.1 (Ev.userJoined entry roomId))
      (st2, confirmation :: joinedEvs ++ broadcastOnlineUsers group onlineUsers roomId)

/-- The disconnect handler (socket.js): the transport has already removed
the socket from its rooms; the handler then walks every per-room
presence map and, wherever the disconnecting user's id is present,
deletes that id and fans out onlineUsersUpdate to the sockets still in
the room — with no check for other live connections of the same
principal. -/
def disconnectHandler (st : Net) (sid : String) (user : SocketUser) :
    Net × List Action :=
  let stA := adapterDropSock st sid
  let stB := { stA with socks := stA.socks.filter (fun p => p.1 != sid) }
  let roomsHit := stB.presence.filter
    (fun p => p.2.any (fun e => e.userId == user.userId))
  let stC := { stB with presence := stB.presence.map (fun p =>
      if p.2.any (fun e => e.userId == user.userId) then
        (p.1, p.2.filter (fun e => e.userId != user.userId))
      else p) }
  let acts := roomsHit.flatMap (fun p =>
    let onlineUsers := p.2.filter (fun e => e.userId != user.userId)
    broadcastOnlineUsers (groupOf stC p.1) onlineUsers p.1)
  (stC, acts)

/-! ## leaveRoom: controller plus socket handler (C10) -/

/-- Result of handleLeaveRoom: the store after, the emissions, and
whether the leave went through (no early-return rejection). -/
structure LeaveOut where
  db : Db
  trace : List Action
  success : Bool
deriving Repr

/-- handleLeaveRoom of message.controller.js: validate the room id; find
the room; require matching company, membership, and that the requester
is not the creator — each early return emits one errorMessage to the
requester and leaves the store untouched. On success the requester is
pulled from the persisted member list, an emptied room record is
deleted, and roomLeft / userLeftRoom are emitted. -/
def handleLeaveRoomCtrl (db : Db) (sid : String) (user : SocketUser)
    (roomGroup : List (String × SocketUser)) (roomId : String) : LeaveOut :=
  if jsTrim roomId == "" then
    { db := db
      trace := [Action.emit sid
        (Ev.errorMessage "Room ID is required and must be a non-empty string")]
      success := false }
  else
    match findRoom db roomId with
    | none =>
      { db := db, trace := [Action.emit sid (Ev.errorMessage "Room not found")]
        success := false }
    | some room =>
      if room.companyId != user.companyId then
        { db := db
          trace := [Action.emit sid
            (Ev.errorMessage "You are not authorized to access this room")]
          success := false }
      else if !(room.users.contains user.userId) then
        { db := db
          trace := [Action.emit sid (Ev.errorMessage "You are not a member of this room")]
          success := false }
      else if room.creator == user.userId then
        { db := db
          trace := [Action.emit sid (Ev.errorMessage "Room creator cannot leave the room")]
          success := false }
      else
        let users' := room.users.filter (fun u => u != user.userId)
        let db1 := { db with rooms := db.rooms.map (fun r =>
            if r.roomId == roomId then { r with users := users' } else r) }
        let db2 :=
          if users'.length == 0 then
            { db1 with rooms := db1.rooms.filter (fun r => r.roomId != roomId) }
          else db1
        { db := db2
          trace := Action.emit sid (Ev.roomLeft roomId user.userId) ::
            (roomGroup.filter (fun p => p.1 != sid)).map (fun p =>
              Action.emit p.1 (Ev.userLeftRoom user.userId
                (user.firstName.getD "Anonymous") roomId room.roomName))
          success := true }

/-- rooms.set(roomId, entry) on the in-memory cache. -/
def cacheSet (c : RoomsCache) (roomId : String) (e : CacheRoom) : RoomsCache :=
  if c.any (fun p => p.1 == roomId) then
    c.map (fun p => if p.1 == roomId then (p.1, e) else p)
  else c ++ [(roomId, e)]

/-- rooms.delete(roomId) on the in-memory cache. -/
def cacheDelete (c : RoomsCache) (roomId : String) : RoomsCache :=
  c.filter (fun p => p.1 != roomId)

/-- rooms.set(roomId, { roomName, users, creator }) from a re-read room
record (the cache refresh after handleLeaveRoom in the socket
handler). -/
def cacheRefresh (st : Net) (roomId : String) (r : RoomDoc) : Net :=
  let e := CacheRoom.mk r.roomName r.users r.creator
  { st with cache := cacheSet st.cache roomId e }

/-- socket.leave(roomId) at the adapter level. -/
def adapterLeave (st : Net) (roomId sid : String) : Net :=
  { st with adapter := st.adapter.map (fun p =>
      if p.1 == roomId then (p.1, p.2.filter (fun s => s != sid)) else p) }

/-- Result of the socket-level leaveRoom event. -/
structure LeaveSockOut where
  st : Net
  db : Db
  trace : List Action
deriving Repr

/-- The socket leaveRoom handler (socket.js): await handleLeaveRoom, then
re-read the room from persistence — refreshing the cache when it still
exists, and discarding the cached entry and the whole per-room presence
map when it does not; finally, whenever the per-room presence map still
exists, delete the requester's entry from it and fan out
onlineUsersUpdate to the room's sockets. None of these post-steps is
conditioned on handleLeaveRoom having succeeded. -/
def leaveRoomHandler (st : Net) (db : Db) (sid : String) (user : SocketUser)
    (roomId : String) : LeaveSockOut :=
  let ctrl := handleLeaveRoomCtrl db sid user (groupOf st roomId) roomId
  let st1 := if ctrl.success then adapterLeave st roomId sid else st
  let st2 :=
    match findRoom ctrl.db roomId with
    | some r => cacheRefresh st1 roomId r
    | none => presDeleteRoom { st1 with cache := cacheDelete st1.cache roomId } roomId
  match presGet st2 roomId with
  | none => { st := st2, db := ctrl.db, trace := ctrl.trace }
  | some _ =>
    let st3 := presDeleteUser st2 roomId user.userId
    let onlineUsers := (presGet st3 roomId).getD []
    { st := st3, db := ctrl.db
      trace := ctrl.trace ++
        broadcastOnlineUsers (groupOf st3 roomId) onlineUsers roomId }

/-! ## Cascading room deletion over HTTP (C1, C4) and over the socket (C9) -/

/-- The four steps of the room-deletion cascade. -/
inductive CascadeStep where
  | voicePurge
  | filePurge
  | messageDelete
  | roomDelete
deriving DecidableEq, Repr

/-- JavaScript truthiness of an optional string: absent or empty. -/
def jsFalsyStr (o : Option String) : Bool :=
  match o with
  | none => true
  | some s => s == ""

/-- The S3 keys of a room's voice messages for one company: the messages
of the room with a voice field whose companyId matches, mapped to their
s3Key (the voiceKeys collection step of deleteS3VoicesByRoom). -/
def roomVoiceKeys (db : Db) (roomId companyId : String) : List String :=
  (db.messages.filter (fun m =>
    m.roomId == roomId && m.companyId == companyId &&
      m.voice.isSome)).filterMap (fun m => m.voice.map VoiceMeta.s3Key)

/-- deleteS3VoicesByRoom of voiceController.js, signature (user, roomId):
validate the caller fields and the room id, find the room, require the
caller's company to match and — for an explicit room_ id — the caller
to be a member, collect the S3 keys of the room's voice messages and
bulk-delete them, returning the number of deleted keys. Every failure
is thrown to the caller. -/
def deleteS3VoicesByRoom (userId companyId : Option String) (roomId : String)
    (db : Db) (s3 : S3) : Except String (Nat × S3) :=
  if jsFalsyStr userId || jsFalsyStr companyId then
    Except.error "User authentication required"
  else if jsTrim roomId == "" then
    Except.error "Room ID is required and must be a non-empty string"
  else
    match findRoom db roomId with
    | none => Except.error "Room not found"
    | some room =>
      if room.companyId != companyId.getD "" then
        Except.error "User not authorized for this room's company"
      else if strStartsWith roomId "room_" &&
          !(room.users.contains (userId.getD "")) then
        Except.error "User not authorized for this room"
      else
        let voiceKeys := roomVoiceKeys db roomId (companyId.getD "")
        Except.ok (voiceKeys.length, s3.filter (fun k => !(voiceKeys.contains k)))

/-- The user field destructured from the single adata argument of
deleteS3FilesByRoom. -/
structure MiniUser where
  userId : Option String
  companyId : Option String
deriving DecidableEq, Repr

/-- The single argument object of deleteS3FilesByRoom ({ user, roomId }). -/
structure FileAdata where
  user : Option MiniUser
  roomId : Option String
deriving DecidableEq, Repr

/-- deleteS3FilesByRoom of filleController.js, signature (adata):
destructure { user, roomId }, validate them, find the room, require the
company to match, bulk-delete the S3 keys of the room's file messages
and then delete those message documents, emitting filesDeleted to the
room; every failure is rethrown. -/
def deleteS3FilesByRoom (adata : FileAdata) (db : Db) (s3 : S3)
    (roomGroup : List (String × SocketUser)) :
    Except String (Nat × Db × S3 × List Action) :=
  let badUser :=
    match adata.user with
    | none => true
    | some u => jsFalsyStr u.userId || jsFalsyStr u.companyId
  if badUser then
    Except.error "User authentication required: missing userId or companyId"
  else
    match adata.roomId with
    | none => Except.error "Room ID is required and must be a non-empty string"
    | some roomId =>
      if jsTrim roomId == "" then
        Except.error "Room ID is required and must be a non-empty string"
      else
        match findRoom db roomId with
        | none => Except.error "Room not found"
        | some room =>
          if room.companyId !=
              ((adata.user.bind MiniUser.companyId).getD "") then
            Except.error "User not authorized for this room's company"
          else
            let fileKeys := (db.messages.filter (fun m =>
                m.roomId == roomId && m.file.isSome)).filterMap
              (fun m => m.file.map FileMeta.s3Key)
            if fileKeys.length > 0 then
              let db' := { db with messages := db.messages.filter (fun m =>
                  !(m.roomId == roomId && m.file.isSome)) }
              Except.ok (fileKeys.length, db',
                s3.filter (fun k => !(fileKeys.contains k)),
                roomGroup.map (fun p =>
                  Action.emit p.1 (Ev.roomDeleted roomId "filesDeleted")))
            else
              Except.ok (0, db, s3, [])

/-- The response body of the HTTP deleteRoom handler. -/
inductive DrBody where
  | err (msg : String)
  | counts (voices files msgs rooms : Nat)
deriving DecidableEq, Repr

/-- The observable outcome of one handleDeleteRoom invocation: an escaped
exception (when the catch block itself crashes) or an HTTP response. -/
inductive DrOutcome where
  | thrown
  | resp (status : Nat) (body : DrBody)
deriving DecidableEq, Repr

/-- Full result of a handleDeleteRoom run. -/
structure DrOut where
  outcome : DrOutcome
  db : Db
  s3 : S3
  steps : List CascadeStep
  emits : List Action
deriving Repr

/-- The cookies available on an HTTP deleteRoom request. -/
structure HttpCookies where
  token : Option Token
deriving DecidableEq, Repr

/-- The headers of an HTTP deleteRoom request; the whole field is absent
when the handler is invoked with a socket instead of a request. -/
structure HttpHeaders where
  cookie : Option HttpCookies
deriving DecidableEq, Repr

/-- The URL parameters of an HTTP deleteRoom request. -/
structure HttpParams where
  roomId : Option String
deriving DecidableEq, Repr

/-- A deleteRoom request: headers is none exactly when the handler is
called with a socket.io socket in place of an Express request, in which
case reading req.headers.cookie throws a TypeError before any store
access, and the catch block crashes in turn because the second argument
has no res.status — the error escapes. -/
structure HttpReq where
  headers : Option HttpHeaders
  params : HttpParams
deriving DecidableEq, Repr

/-- The allowedRoles check of handleDeleteRoom: the raw token position
must be one of CEO, Manager, HR (an absent position is not included). -/
def positionAllowed (o : Option String) : Bool :=
  match o with
  | some p => ["CEO", "Manager", "HR"].contains p
  | none => false

/-- handleDeleteRoom of message.controller.js: authenticate from the
token cookie, restrict to the positions CEO / Manager / HR, find the
room and require the requester's company to match it — the creator is
never consulted. Then run the cascade: deleteS3VoicesByRoom with
(decoded, roomId); deleteS3FilesByRoom with (decoded, roomId), although
that function destructures a single { user, roomId } object, so it
receives user = undefined and roomId = undefined and always throws;
then (unreachably in this wiring) deleteMany on the room's messages,
deleteOne on the room record, a roomDeleted broadcast, and a 200
response carrying the per-step counts. Any thrown step aborts the
handler through its catch with a 500 response and no later step. -/
def handleDeleteRoom (req : HttpReq) (db : Db) (s3 : S3)
    (roomGroup : List (String × SocketUser)) : DrOut :=
  match req.headers with
  | none => { outcome := DrOutcome.thrown, db := db, s3 := s3, steps := [], emits := [] }
  | some h =>
    match h.cookie with
    | none =>
      { outcome := DrOutcome.resp 401 (DrBody.err "No cookies sent")
        db := db, s3 := s3, steps := [], emits := [] }
    | some jar =>
      match jar.token with
      | none =>
        { outcome := DrOutcome.resp 401 (DrBody.err "Token missing")
          db := db, s3 := s3, steps := [], emits := [] }
      | some Token.invalid =>
        { outcome := DrOutcome.resp 500
            (DrBody.err "An unexpected error occurred while deleting the room")
          db := db, s3 := s3, steps := [], emits := [] }
      | some (Token.valid d) =>
        if !(positionAllowed d.position) then
          { outcome := DrOutcome.resp 403 (DrBody.err "Insufficient position permissions")
            db := db, s3 := s3, steps := [], emits := [] }
        else
          match req.params.roomId with
          | none =>
            { outcome := DrOutcome.resp 400 (DrBody.err "roomId is required")
              db := db, s3 := s3, steps := [], emits := [] }
          | some roomId =>
            match findRoom db roomId with
            | none =>
              { outcome := DrOutcome.resp 404 (DrBody.err "Room not found")
                db := db, s3 := s3, steps := [], emits := [] }
            | some room =>
              if room.companyId != d.companyId.getD "undefined" then
                { outcome := DrOutcome.resp 403
                    (DrBody.err "Not authorized for this company")
                  db := db, s3 := s3, steps := [], emits := [] }
              else
                match deleteS3VoicesByRoom d.userId d.companyId roomId db s3 with
                | Except.error e =>
                  { outcome := DrOutcome.resp 500 (DrBody.err e)
                    db := db, s3 := s3, steps := [CascadeStep.voicePurge], emits := [] }
                | Except.ok (vc, s3v) =>
                  match deleteS3FilesByRoom
                      { user := none, roomId := none } db s3v roomGroup with
                  | Except.error e =>
                    { outcome := DrOutcome.resp 500 (DrBody.err e)
                      db := db, s3 := s3v
                      steps := [CascadeStep.voicePurge, CascadeStep.filePurge]
                      emits := [] }
                  | Except.ok (fc, db2, s3f, femits) =>
                    let mc := (db2.messages.filter (fun m => m.roomId == roomId)).length
                    let msgs' := db2.messages.filter (fun m => m.roomId != roomId)
                    let db3 := { db2 with messages := msgs' }
                    let rc := (db3.rooms.filter (fun r => r.roomId == roomId)).length
                    let rooms' := db3.rooms.filter (fun r => r.roomId != roomId)
                    let db4 := { db3 with rooms := rooms' }
                    if rc == 0 then
                      let body := DrBody.err "Failed to delete room from rooms collection"
                      { outcome := DrOutcome.resp 500 body
                        db := db3, s3 := s3f
                        steps := [CascadeStep.voicePurge, CascadeStep.filePurge,
                          CascadeStep.messageDelete, CascadeStep.roomDelete]
                        emits := femits }
                    else
                      { outcome := DrOutcome.resp 200 (DrBody.counts vc fc mc rc)
                        db := db4, s3 := s3f
                        steps := [CascadeStep.voicePurge, CascadeStep.filePurge,
                          CascadeStep.messageDelete, CascadeStep.roomDelete]
                        emits := femits ++ roomGroup.map (fun p =>
                          Action.emit p.1 (Ev.roomDeleted roomId
                            ((orElseStr d.userId d.id).getD ""))) }

/-- The payload of the socket-level deleteRoom event. -/
structure DeleteRoomData where
  roomId : String
deriving DecidableEq, Repr

/-- The socket deleteRoom handler (socket.js): call handleDeleteRoom with
the socket where it expects an Express request — so it throws before any
store access — and then unconditionally discard the named room's whole
in-memory presence map, for any caller. -/
def socketDeleteRoomHandler (st : Net) (db : Db) (s3 : S3) (sid : String)
    (user : SocketUser) (data : DeleteRoomData) : Net × DrOut :=
  let r := handleDeleteRoom { headers := none, params := { roomId := none } } db s3 []
  (presDeleteRoom st data.roomId, r)

/-! ## Shared helper lemmas -/

/-- Membership in the events a trace delivers to a socket is membership
of the corresponding emit action in the trace. -/
theorem mem_deliveredTo {tr : List Action} {sid : String} {e : Ev} :
    e ∈ deliveredTo tr sid ↔ Action.emit sid e ∈ tr := by
  induction tr with
  | nil => simp [deliveredTo]
  | cons a tl ih =>
    cases a with
    | persist m => simp [deliveredTo, ih]
    | persistFail => simp [deliveredTo, ih]
    | emit s e' =>
      by_cases h : s = sid
      · subst h
        simp [deliveredTo, ih]
      · simp [deliveredTo, h, ih, Ne.symm h]

/-- find? for a key on a list from which that key has been filtered out
finds nothing. -/
theorem find?_filter_key_ne {α : Type} (l : List (String × α)) (rid : String) :
    (l.filter (fun p => p.1 != rid)).find? (fun p => p.1 == rid) = none := by
  induction l with
  | nil => rfl
  | cons h t ih =>
    by_cases hh : h.1 = rid
    · simp [List.filter_cons, hh, ih]
    · simp [List.filter_cons, hh, List.find?, ih]

/-- Discarding a room's presence map leaves no presence entry for it. -/
theorem presGet_presDeleteRoom (st : Net) (rid : String) :
    presGet (presDeleteRoom st rid) rid = none := by
  simp [presGet, presDeleteRoom, find?_filter_key_ne]

/-- find? through a map whose function preserves the predicate. -/
theorem find?_map_of_pred_pres {α : Type} (l : List α) (p : α → Bool)
    (g : α → α) (hg : ∀ x, p (g x) = p x) :
    (l.map g).find? p = (l.find? p).map g := by
  induction l with
  | nil => rfl
  | cons a t ih =>
    by_cases ha : p a
    · simp [List.find?, hg, ha, ih]
    · simp only [List.map_cons, List.find?, hg a, ha]
      exact ih

/-! ## Concrete fixtures -/

/-- An ordinary member principal bound to a connection. -/
def aliceU : SocketUser :=
  { userId := "alice", role := Role.user, position := "employee"
    firstName := some "Alice", companyId := "c1" }

/-- A second ordinary member. -/
def bobU : SocketUser :=
  { userId := "bob", role := Role.user, position := "ceo"
    firstName := some "Bob", companyId := "c1" }

/-- An external client principal bound to a connection. -/
def carolC : SocketUser :=
  { userId := "carol", role := Role.client, position := "client"
    firstName := some "Carol", companyId := "c1" }

/-- A cached explicit room with alice as creator. -/
def roomCache1 : RoomsCache :=
  [("room_1_ab", { roomName := "proj", users := ["alice", "bob", "carol"]
                   creator := "alice" })]

/-- The transport group of the room: alice's and carol's sockets. -/
def group1 : List (String × SocketUser) := [("sidA", aliceU), ("sidC", carolC)]

/-- An empty document store. -/
def dbEmpty : Db := { users := [], admins := [], clients := [], rooms := [], messages := [] }

/-- The persisted room record matching roomCache1's room, with alice and
bob as members. -/
def roomA : RoomDoc :=
  { roomId := "room_1_ab", roomName := "proj", users := ["alice", "bob"]
    creator := "alice", companyId := "c1" }

/-- A persisted voice message in the room, with one S3 voice object. -/
def voiceMsg : MessageDoc :=
  { oid := "m1", userId := "alice", username := "Alice"
    message := "Voice file uploaded", roomId := "room_1_ab", companyId := "c1"
    timestamp := 1, updatedAt := none
    voice := some { s3Key := "voiceUploads/v1" }, file := none }

/-- Store holding the room and its voice message. -/
def dbC1 : Db := { users := [], admins := [], clients := [], rooms := [roomA]
                   messages := [voiceMsg] }

/-- The S3 store holding the voice object. -/
def s3C1 : S3 := ["voiceUploads/v1"]

/-- bob's verified JWT payload: a CEO of company c1 — not the creator of
roomA. -/
def payloadBob : JwtPayload :=
  { id := none, userId := some "bob", clientId := none, adminId := none
    position := some "CEO", companyId := some "c1", firstName := some "Bob" }

/-- bob's HTTP deleteRoom request for roomA. -/
def reqBob : HttpReq :=
  { headers := some { cookie := some { token := some (Token.valid payloadBob) } }
    params := { roomId := some "room_1_ab" } }

/-! ## C1 -/

/-- Whether an outcome is a 403 Forbidden response. -/
def isForbidden (o : DrOutcome) : Bool :=
  match o with
  | DrOutcome.resp 403 _ => true
  | _ => false

/-- The C1 claim at one deleteRoom request: a requester other than the
room's creator is rejected with Forbidden, and the rejection leaves the
room record, the messages, and the attachment objects unchanged. -/
@[reducible] def claimC1 (req : HttpReq) (db : Db) (s3 : S3)
    (roomGroup : List (String × SocketUser)) (creator requester : String) : Prop :=
  requester ≠ creator →
    isForbidden (handleDeleteRoom req db s3 roomGroup).outcome = true ∧
    (handleDeleteRoom req db s3 roomGroup).db = db ∧
    (handleDeleteRoom req db s3 roomGroup).s3 = s3

/-- C1 counterexample: bob (CEO of the room's company, a member, not the
creator alice) requests deleteRoom on roomA. The handler never consults
the creator: bob passes the position and company checks, the voice
purge deletes the room's S3 voice object, and the request then fails
with a 500 (the file-purge helper is called with the JWT payload where
it expects a { user, roomId } object) — not with Forbidden, and not
leaving the attachments unchanged. -/
theorem deleteRoom_creator_claim_false :
    ¬ claimC1 reqBob dbC1 s3C1 [] "alice" "bob" := by
  decide

/-! ## C4 -/

/-- Whether an outcome reports per-step deletion counts. -/
def reportsCounts (o : DrOutcome) : Bool :=
  match o with
  | DrOutcome.resp _ (DrBody.counts _ _ _ _) => true
  | _ => false

/-- The C4 claim at one deleteRoom request: all four cascade steps are
attempted and the response reports the count achieved for each step. -/
@[reducible] def claimC4 (req : HttpReq) (db : Db) (s3 : S3)
    (roomGroup : List (String × SocketUser)) : Prop :=
  ([CascadeStep.voicePurge, CascadeStep.filePurge, CascadeStep.messageDelete,
      CascadeStep.roomDelete].all
    (fun s => (handleDeleteRoom req db s3 roomGroup).steps.contains s)) = true ∧
  reportsCounts (handleDeleteRoom req db s3 roomGroup).outcome = true

/-- C4 counterexample: on bob's fully authorized deleteRoom request the
voice purge succeeds and the file purge throws, after which the message
deletion and the room-record deletion are never attempted and the
response is a 500 with no counts — the cascade is fail-fast, not
best-effort. -/
theorem deleteRoom_cascade_claim_false :
    ¬ claimC4 reqBob dbC1 s3C1 [] := by
  decide

/-! ## C2 -/

/-- Whether an event is a newMessage carrying the given username. -/
def evUsesName (e : Ev) (n : String) : Bool :=
  match e with
  | Ev.newMessage m => m.username == n
  | _ => false

/-- The C2 claim, restricted to its universal part, at one send: no
recipient connection whose principal has role client and is not the
author ever receives a newMessage carrying the author's real display
name. -/
@[reducible] def claimC2 (tr : List Action) (group : List (String × SocketUser))
    (authorId realName : String) : Prop :=
  ∀ p ∈ group, p.2.role = Role.client → p.2.userId ≠ authorId →
    ∀ e ∈ deliveredTo tr p.1, evUsesName e realName = false

/-- C2 counterexample: alice (role user, display name Alice) sends
"hello" to the room; carol's client connection receives a newMessage
whose username is "Alice" — the author's real display name — because
handleSendMessage itself broadcasts one uniform shape to the whole room
and returns no message, leaving the role-shaping loop of the socket
handler unreachable. -/
theorem sendMessage_client_shape_claim_false :
    ¬ claimC2 (sendMessageHandler dbEmpty roomCache1 "sidA" aliceU group1
        "hello" "room_1_ab" "" (Except.ok "m2") 10).trace
      group1 "alice" "Alice" := by
  decide

/-! ## C3 -/

/-- Whether an event is a stop-typing notification carrying the given
principal id. -/
def evStopTypingFrom (e : Ev) (uid : String) : Bool :=
  match e with
  | Ev.userStoppedTyping u _ => u == uid
  | _ => false

/-- The C3 claim, restricted to stop-typing, at one event: no connection
whose principal has role client receives a stop-typing event carrying
the typer's principal id. -/
@[reducible] def claimC3 (tr : List Action) (group : List (String × SocketUser))
    (typerId : String) : Prop :=
  ∀ p ∈ group, p.2.role = Role.client →
    ∀ e ∈ deliveredTo tr p.1, evStopTypingFrom e typerId = false

/-- C3 counterexample: alice stops typing in the room; carol's client
connection receives userStoppedTyping carrying alice's principal id,
because the stopTyping handler broadcasts to every other socket of the
room with no role filter (socket.to(roomId).emit), unlike the typing
handler. -/
theorem stopTyping_client_identity_claim_false :
    ¬ claimC3 (stopTypingHandler roomCache1 "sidA" aliceU group1
        "room_1_ab" "alice")
      group1 "alice" := by
  decide

/-! ## C5 -/

/-- The lookup order the specification claims: ordinary members (users),
then administrative staff (admins), then external clients (clients),
first match wins. -/
def specFirstMatch (db : Db) (idKey : String) : Option (PrincipalDoc × Role) :=
  match db.users.find? (fun u => u.oid == idKey) with
  | some u => some (u, Role.user)
  | none =>
    match db.admins.find? (fun u => u.oid == idKey) with
    | some u => some (u, Role.admin)
    | none =>
      match db.clients.find? (fun u => u.oid == idKey) with
      | some u => some (u, Role.client)
      | none => none

/-- The C5 claim at one connection: whenever the resolver binds the
connection, the binding is the first match of the extracted identifier
in the priority order members, staff, clients. -/
def claimC5 (db : Db) (jar : CookieJar) : Prop :=
  ∀ u, socketAuth db (some jar) = Except.ok u →
    ∃ doc, specFirstMatch db u.userId = some (doc, u.role) ∧
      u.firstName = orElseStr doc.firstName
        (orElseStr doc.name doc.fullName)

/-- A 24-hex-character principal id present in both the users and the
admins collections. -/
def zid : String := "aaaaaaaaaaaaaaaaaaaaaaaa"

/-- The ordinary-member record for zid (display name U). -/
def memberDocZ : PrincipalDoc :=
  { oid := zid, position := some "Employee", firstName := some "U"
    fullName := none, name := none, companyId := some "c1", email := none }

/-- The administrative-staff record for zid (display name A). -/
def adminDocZ : PrincipalDoc :=
  { oid := zid, position := some "Admin", firstName := some "A"
    fullName := none, name := none, companyId := some "c1", email := none }

/-- A store in which zid exists both as a member and as staff. -/
def dbC5 : Db := { users := [memberDocZ], admins := [adminDocZ], clients := []
                   rooms := [], messages := [] }

/-- A verified payload carrying zid. -/
def payloadZ : JwtPayload :=
  { id := some zid, userId := none, clientId := none, adminId := none
    position := none, companyId := some "c1", firstName := none }

/-- A handshake presenting both the member cookie and the staff cookie
for zid. -/
def jarC5 : CookieJar :=
  { token := some (Token.valid payloadZ)
    admintoken := some (Token.valid payloadZ)
    clientToken := none }

/-- The identity the middleware actually binds for jarC5 (the staff
record's data). -/
def boundZ : SocketUser :=
  { userId := zid, role := Role.admin, position := "admin"
    firstName := some "A", companyId := "c1" }

/-- C5 counterexample: with both cookies presented for an identifier that
exists in the members and the staff collections, the resolver binds the
connection to the staff record (display name A, role admin) — the
cookie priority is admintoken, then token, then clientToken, and only
the single collection of the chosen cookie is queried — whereas the
claimed members-first lookup would bind the member record (display
name U, role user). -/
theorem connectAuth_member_priority_claim_false : ¬ claimC5 dbC5 jarC5 := by
  intro h
  obtain ⟨doc, hdoc, -⟩ := h boundZ rfl
  have hid : boundZ.userId = zid := rfl
  have hspec : specFirstMatch dbC5 zid = some (memberDocZ, Role.user) := by decide
  rw [hid, hspec] at hdoc
  simp only [Option.some.injEq, Prod.mk.injEq] at hdoc
  exact absurd hdoc.2 (by decide)

/-! ## C7 -/

/-- Whether an action is a messageUpdated emission. -/
def isMessageUpdated (a : Action) : Bool :=
  match a with
  | Action.emit _ (Ev.messageUpdated _ _ _ _ _ _) => true
  | _ => false

/-- The C7 claim at one edit: if the edit went through (a messageUpdated
event was broadcast), the stored message body equals the new text. -/
@[reducible] def claimC7 (db : Db) (sid : String) (user : SocketUser)
    (group : List (String × SocketUser))
    (messageId newMessage targetRoom : String) (now : Nat) : Prop :=
  ((handleEditMessage db sid user group messageId newMessage targetRoom now).trace.any
      isMessageUpdated) = true →
    (((handleEditMessage db sid user group messageId newMessage targetRoom
            now).db.messages.find?
        (fun m => m.oid == messageId && m.roomId == targetRoom)).map
      MessageDoc.message) = some newMessage

/-- A persisted message authored by alice in the room. -/
def editMsg : MessageDoc :=
  { oid := zid, userId := "alice", username := "Alice", message := "old"
    roomId := "room_1_ab", companyId := "c1", timestamp := 5
    updatedAt := none, voice := none, file := none }

/-- Store holding the room and alice's message. -/
def dbC7 : Db := { users := [], admins := [], clients := [], rooms := [roomA]
                   messages := [editMsg] }

/-- C7 counterexample: alice edits her own message with the new text
" hi " (valid: non-empty after trimming). The edit succeeds and
broadcasts messageUpdated, but the stored body is the trimmed "hi",
not the submitted new text " hi ". -/
theorem editMessage_body_equals_new_text_claim_false :
    ¬ claimC7 dbC7 "sidA" aliceU group1 zid " hi " "room_1_ab" 9 := by
  decide

/-! ## C10 -/

/-- Whether an action is an onlineUsersUpdate emission (either the full
list or the count-only form). -/
def isOnlineUpdate (a : Action) : Bool :=
  match a with
  | Action.emit _ (Ev.onlineUsersFull _ _) => true
  | Action.emit _ (Ev.onlineUsersCount _ _) => true
  | _ => false

/-- Whether an action is an errorMessage emission to the given socket. -/
def isErrorTo (a : Action) (sid : String) : Bool :=
  match a with
  | Action.emit s (Ev.errorMessage _) => s == sid
  | _ => false

/-- The C10 claim at one leaveRoom event: when the controller rejects the
request, the persisted store is unchanged and an error is reported, yet
the requester is removed from the room's presence map and an
onlineUsersUpdate broadcast is emitted to the room. -/
@[reducible] def claimC10 (st : Net) (db : Db) (sid : String)
    (user : SocketUser) (roomId : String) : Prop :=
  (handleLeaveRoomCtrl db sid user (groupOf st roomId) roomId).success = false →
    (leaveRoomHandler st db sid user roomId).db = db ∧
    ((leaveRoomHandler st db sid user roomId).trace.any
        (fun a => isErrorTo a sid)) = true ∧
    (((presGet (leaveRoomHandler st db sid user roomId).st roomId).getD []).all
        (fun e => e.userId != user.userId)) = true ∧
    ((leaveRoomHandler st db sid user roomId).trace.any isOnlineUpdate) = true

/-- A socket state where the room is cached and both sockets are in the
transport room, but nobody has joined via the joinRoom event, so the
room has no presence map. -/
def netL : Net :=
  { cache := roomCache1, presence := []
    adapter := [("room_1_ab", ["sidA", "sidC"])], socks := group1 }

/-- Store holding only the persisted room record. -/
def dbL : Db := { users := [], admins := [], clients := [], rooms := [roomA]
                  messages := [] }

/-- C10 counterexample: alice — the creator — sends leaveRoom for
room_1_ab while the room has no in-memory presence map (no one has
emitted joinRoom since process start). The request is rejected ("Room
creator cannot leave the room") and the store is untouched, but no
onlineUsersUpdate broadcast is emitted, because the broadcast is
guarded by onlineUsersByRoom.has(roomId). -/
theorem leaveRoom_rejection_broadcast_claim_false :
    ¬ claimC10 netL dbL "sidA" aliceU "room_1_ab" := by
  decide

/-! ## C8 -/

/-- The C8 claim at one room and principal: the principal appears in the
room's presence map exactly when at least one of their live connections
is joined to the room's transport group. -/
@[reducible] def claimC8 (st : Net) (uid rid : String) : Prop :=
  (((presGet st rid).getD []).any (fun e => e.userId == uid)) = true ↔
    (st.socks.any
      (fun p => (adapterGet st rid).contains p.1 && p.2.userId == uid)) = true

/-- Initial state for the C8 scenario: the cached room with alice as
member, and two live sockets s1 and s2 both bound to alice. -/
def net0 : Net :=
  { cache := [("room_1_ab", { roomName := "proj", users := ["alice"]
                              creator := "alice" })]
    presence := [], adapter := []
    socks := [("s1", aliceU), ("s2", aliceU)] }

/-- State after alice's first connection joins the room. -/
def net1 : Net := (joinRoomHandler net0 "s1" aliceU "room_1_ab").1

/-- State after alice's second connection also joins the room. -/
def net2 : Net := (joinRoomHandler net1 "s2" aliceU "room_1_ab").1

/-- State after the first connection disconnects while the second stays
joined. -/
def net3 : Net := (disconnectHandler net2 "s1" aliceU).1

/-- C8: after both of alice's connections join room_1_ab and s1
disconnects, the code removes alice from the room's presence map even
though her connection s2 is still joined to the room — the presence map
is keyed by principal id and the disconnect handler deletes the id
unconditionally, so presence does not reflect "has at least one live
connection". The specification states the opposite as an invariant, so
this is a defect of the code. -/
theorem presence_survives_second_connection_false :
    presGet net3 "room_1_ab" = some [] ∧
    adapterGet net3 "room_1_ab" = ["s2"] ∧
    ((net3.socks.find? (fun p => p.1 == "s2")).map Prod.snd) = some aliceU ∧
    ¬ claimC8 net3 "alice" "room_1_ab" := by
  decide

/-! ## C9 -/

/-- C9: emitting the real-time deleteRoom event leaves the document store
and the attachment store untouched and performs no cascade step — the
HTTP handler receives the socket where it expects a request and throws
before any store access — yet the named room's whole in-memory presence
map is discarded, whoever the caller is. -/
theorem socketDeleteRoom_discards_presence_only (st : Net) (db : Db) (s3 : S3)
    (sid : String) (user : SocketUser) (data : DeleteRoomData) :
    (socketDeleteRoomHandler st db s3 sid user data).2.db = db ∧
    (socketDeleteRoomHandler st db s3 sid user data).2.s3 = s3 ∧
    (socketDeleteRoomHandler st db s3 sid user data).2.outcome = DrOutcome.thrown ∧
    (socketDeleteRoomHandler st db s3 sid user data).2.steps = [] ∧
    presGet (socketDeleteRoomHandler st db s3 sid user data).1 data.roomId = none := by
  refine ⟨rfl, rfl, rfl, rfl, ?_⟩
  exact presGet_presDeleteRoom st data.roomId

/-! ## C6: persistence strictly before broadcast -/

/-- Whether an action is addressed to the given socket (non-emissions
count as trivially addressed). -/
def emitTargets (a : Action) (sid : String) : Bool :=
  match a with
  | Action.emit s _ => s == sid
  | _ => true

/-- C6: in every run of the send path, any newMessage emission occurs
strictly after the successful persistence write in the action trace;
and when the persistence write fails, the trace contains no newMessage
emission at all and every emission is addressed to the originating
connection only. -/
theorem send_persist_strictly_before_broadcast
    (db : Db) (cache : RoomsCache) (senderSid : String) (user : SocketUser)
    (roomGroup : List (String × SocketUser))
    (message currentRoom activeRoom : String)
    (insertOutcome : Except Unit String) (now : Nat) :
    (∀ i a,
      (sendMessageHandler db cache senderSid user roomGroup message currentRoom
          activeRoom insertOutcome now).trace.get? i = some a →
      a.isNewMessage = true →
      ∃ j m, j < i ∧
        (sendMessageHandler db cache senderSid user roomGroup message currentRoom
            activeRoom insertOutcome now).trace.get? j = some (Action.persist m)) ∧
    (Action.persistFail ∈
        (sendMessageHandler db cache senderSid user roomGroup message currentRoom
          activeRoom insertOutcome now).trace →
      ∀ a ∈ (sendMessageHandler db cache senderSid user roomGroup message
          currentRoom activeRoom insertOutcome now).trace,
        a.isNewMessage = false ∧ emitTargets a senderSid = true) := by
  by_cases hmem : (resolvedRoom currentRoom activeRoom !=
      "company_" ++ user.companyId &&
      !(isUserInRoom cache (resolvedRoom currentRoom activeRoom)
        user.userId)) = true
  · have htr : (sendMessageHandler db cache senderSid user roomGroup message
        currentRoom activeRoom insertOutcome now).trace =
        [Action.emit senderSid (Ev.errorMessage "Unauthorized room access.")] := by
      simp [sendMessageHandler, hmem]
    refine ⟨?_, ?_⟩ <;> rw [htr]
    · intro i a hi hn
      rcases i with _ | i
      · simp only [List.get?] at hi
        cases hi
        simp [Action.isNewMessage] at hn
      · rcases i with _ | i <;> simp [List.get?] at hi
    · intro hpf
      simp at hpf
  · by_cases hv : (jsTrim message == "") = true
    · have htr : (sendMessageHandler db cache senderSid user roomGroup message
          currentRoom activeRoom insertOutcome now).trace =
          [Action.emit senderSid
            (Ev.errorMessage "Message is required and must be a non-empty string"),
           Action.emit senderSid (Ev.errorMessage "Error sending message.")] := by
        simp [sendMessageHandler, handleSendMessage, hmem, hv]
      refine ⟨?_, ?_⟩ <;> rw [htr]
      · intro i a hi hn
        rcases i with _ | i
        · simp only [List.get?] at hi
          cases hi
          simp [Action.isNewMessage] at hn
        · rcases i with _ | i
          · simp only [List.get?] at hi
            cases hi
            simp [Action.isNewMessage] at hn
          · rcases i with _ | i <;> simp [List.get?] at hi
      · intro hpf
        simp at hpf
    · by_cases ht : (resolvedRoom currentRoom activeRoom == "") = true
      · have htr : (sendMessageHandler db cache senderSid user roomGroup message
            currentRoom activeRoom insertOutcome now).trace =
            [Action.emit senderSid (Ev.errorMessage "Target room is required"),
             Action.emit senderSid (Ev.errorMessage "Error sending message.")] := by
          simp [sendMessageHandler, handleSendMessage, hmem, hv, ht]
        refine ⟨?_, ?_⟩ <;> rw [htr]
        · intro i a hi hn
          rcases i with _ | i
          · simp only [List.get?] at hi
            cases hi
            simp [Action.isNewMessage] at hn
          · rcases i with _ | i
            · simp only [List.get?] at hi
              cases hi
              simp [Action.isNewMessage] at hn
            · rcases i with _ | i <;> simp [List.get?] at hi
        · intro hpf
          simp at hpf
      · cases insertOutcome with
        | error u =>
          have htr : (sendMessageHandler db cache senderSid user roomGroup message
              currentRoom activeRoom (Except.error u) now).trace =
              [Action.persistFail,
               Action.emit senderSid
                 (Ev.errorMessage "Server error while sending message"),
               Action.emit senderSid (Ev.errorMessage "Error sending message.")] := by
            simp [sendMessageHandler, handleSendMessage, hmem, hv, ht]
          refine ⟨?_, ?_⟩ <;> rw [htr]
          · intro i a hi hn
            rcases i with _ | i
            · simp only [List.get?] at hi
              cases hi
              simp [Action.isNewMessage] at hn
            · rcases i with _ | i
              · simp only [List.get?] at hi
                cases hi
                simp [Action.isNewMessage] at hn
              · rcases i with _ | i
                · simp only [List.get?] at hi
                  cases hi
                  simp [Action.isNewMessage] at hn
                · rcases i with _ | i <;> simp [List.get?] at hi
          · intro _ a ha
            rcases List.mem_cons.mp ha with h | h
            · subst h
              exact ⟨rfl, rfl⟩
            · rcases List.mem_cons.mp h with h2 | h2
              · subst h2
                exact ⟨rfl, by simp [emitTargets]⟩
              · rcases List.mem_cons.mp h2 with h3 | h3
                · subst h3
                  exact ⟨rfl, by simp [emitTargets]⟩
                · simp at h3
        | ok newId =>
          have htr : (sendMessageHandler db cache senderSid user roomGroup message
              currentRoom activeRoom (Except.ok newId) now).trace =
              Action.persist (sentDoc user message
                  (resolvedRoom currentRoom activeRoom) newId now) ::
                ((roomGroup.filter (fun p => p.1 != senderSid)).map
                  (fun p => Action.emit p.1 (Ev.newMessage (sentWire user message
                    (resolvedRoom currentRoom activeRoom) newId now))) ++
                 [Action.emit senderSid (Ev.newMessage (sentWire user message
                    (resolvedRoom currentRoom activeRoom) newId now)),
                  Action.emit senderSid
                    (Ev.errorMessage "Error sending message.")]) := by
            simp [sendMessageHandler, handleSendMessage, hmem, hv, ht]
          refine ⟨?_, ?_⟩ <;> rw [htr]
          · intro i a hi hn
            rcases i with _ | i
            · simp only [List.get?] at hi
              cases hi
              simp [Action.isNewMessage] at hn
            · refine ⟨0, sentDoc user message
                (resolvedRoom currentRoom activeRoom) newId now,
                Nat.succ_pos i, rfl⟩
          · intro hpf
            simp [List.mem_append, List.mem_map] at hpf

/-- C6 witness: at a concrete send whose persistence write fails, the
failure emission is not a newMessage and is addressed to the sender. -/
theorem send_persist_strictly_before_broadcast_witness :
    (Action.emit "sidA"
        (Ev.errorMessage "Server error while sending message")).isNewMessage =
      false ∧
    emitTargets (Action.emit "sidA"
        (Ev.errorMessage "Server error while sending message")) "sidA" = true :=
  (send_persist_strictly_before_broadcast dbEmpty roomCache1 "sidA" aliceU group1
      "hello" "room_1_ab" "" (Except.error ()) 10).2 (by decide) _ (by decide)

/-! ## C2 amended -/

/-- C2 amended: on a send that passes validation, membership and
persistence, every newMessage emission in the trace carries the single
wire shape built from the author's real display name; every connection
of the room's transport group — client-role recipients included — has
that same shape among its delivered events; and the sender additionally
receives an errorMessage, because handleSendMessage returns no saved
message and the role-shaping loop of the socket handler is
unreachable. -/
theorem send_all_recipients_get_real_name
    (db : Db) (cache : RoomsCache) (senderSid : String) (user : SocketUser)
    (roomGroup : List (String × SocketUser))
    (message currentRoom activeRoom newId : String) (now : Nat)
    (hmem : (resolvedRoom currentRoom activeRoom !=
        "company_" ++ user.companyId &&
        !(isUserInRoom cache (resolvedRoom currentRoom activeRoom)
          user.userId)) = false)
    (hv : (jsTrim message == "") = false)
    (ht : (resolvedRoom currentRoom activeRoom == "") = false) :
    (∀ a ∈ (sendMessageHandler db cache senderSid user roomGroup message
        currentRoom activeRoom (Except.ok newId) now).trace,
      ∀ s m, a = Action.emit s (Ev.newMessage m) →
        m = sentWire user message (resolvedRoom currentRoom activeRoom) newId now) ∧
    (∀ p ∈ roomGroup,
      Ev.newMessage (sentWire user message (resolvedRoom currentRoom activeRoom)
          newId now) ∈
        deliveredTo (sendMessageHandler db cache senderSid user roomGroup message
          currentRoom activeRoom (Except.ok newId) now).trace p.1) ∧
    Ev.errorMessage "Error sending message." ∈
      deliveredTo (sendMessageHandler db cache senderSid user roomGroup message
        currentRoom activeRoom (Except.ok newId) now).trace senderSid ∧
    (sentWire user message (resolvedRoom currentRoom activeRoom) newId
        now).username = user.firstName.getD "Anonymous" := by
  have htr : (sendMessageHandler db cache senderSid user roomGroup message
      currentRoom activeRoom (Except.ok newId) now).trace =
      Action.persist (sentDoc user message
          (resolvedRoom currentRoom activeRoom) newId now) ::
        ((roomGroup.filter (fun p => p.1 != senderSid)).map
          (fun p => Action.emit p.1 (Ev.newMessage (sentWire user message
            (resolvedRoom currentRoom activeRoom) newId now))) ++
         [Action.emit senderSid (Ev.newMessage (sentWire user message
            (resolvedRoom currentRoom activeRoom) newId now)),
          Action.emit senderSid (Ev.errorMessage "Error sending message.")]) := by
    simp [sendMessageHandler, handleSendMessage, hmem, hv, ht]
  refine ⟨?_, ?_, ?_, rfl⟩
  · intro a ha s m heq
    rw [htr] at ha
    rcases List.mem_cons.mp ha with h | h
    · subst h
      cases heq
    · rcases List.mem_append.mp h with h2 | h2
      · rcases List.mem_map.mp h2 with ⟨p, -, hp⟩
        rw [← hp] at heq
        cases heq
        rfl
      · rcases List.mem_cons.mp h2 with h3 | h3
        · rw [h3] at heq
          cases heq
          rfl
        · rcases List.mem_cons.mp h3 with h4 | h4
          · rw [h4] at heq
            cases heq
          · simp at h4
  · intro p hp
    rw [mem_deliveredTo, htr]
    by_cases hps : p.1 = senderSid
    · rw [hps]
      apply List.mem_cons_of_mem
      apply List.mem_append_right
      exact List.mem_cons_self _ _
    · apply List.mem_cons_of_mem
      apply List.mem_append_left
      apply List.mem_map.mpr
      refine ⟨p, List.mem_filter.mpr ⟨hp, ?_⟩, rfl⟩
      simp [hps]
  · rw [mem_deliveredTo, htr]
    apply List.mem_cons_of_mem
    apply List.mem_append_right
    apply List.mem_cons_of_mem
    exact List.mem_cons_self _ _

/-- C2 amended witness: at alice's concrete send, carol's client
connection receives the real-name wire shape. -/
theorem send_all_recipients_get_real_name_witness :
    Ev.newMessage (sentWire aliceU "hello" "room_1_ab" "m2" 10) ∈
      deliveredTo (sendMessageHandler dbEmpty roomCache1 "sidA" aliceU group1
        "hello" "room_1_ab" "" (Except.ok "m2") 10).trace "sidC" :=
  (send_all_recipients_get_real_name dbEmpty roomCache1 "sidA" aliceU group1
      "hello" "room_1_ab" "" "m2" 10 (by decide) (by decide) (by decide)).2.1
    ("sidC", carolC) (by decide)

/-! ## C3 amended -/

/-- C3 amended: typing events are emitted only to non-client sockets
other than the typer; every onlineUsersUpdate fan-out emission is
either the count-only form to a client-role group member or the full
list to a non-client member; a client joiner's joinConfirmation carries
an empty user list; userJoined is emitted only to non-client group
members other than the joiner; but stop-typing events are emitted to
every socket of the room other than the typer — clients included — and
carry the typer's principal id. -/
theorem typing_presence_role_shaping :
    (∀ (cache : RoomsCache) (typerSid : String) (user : SocketUser)
        (group : List (String × SocketUser)) (rid uid : String),
      ∀ a ∈ typingHandler cache typerSid user group rid uid,
        ∃ p ∈ group, p.1 ≠ typerSid ∧ p.2.role ≠ Role.client ∧
          a = Action.emit p.1 (Ev.userTyping user.userId
            (user.firstName.getD "Anonymous") rid)) ∧
    (∀ (group : List (String × SocketUser)) (users : List PresEntry)
        (rid : String),
      ∀ a ∈ broadcastOnlineUsers group users rid,
        (∃ p ∈ group, p.2.role = Role.client ∧
          a = Action.emit p.1 (Ev.onlineUsersCount users.length rid)) ∨
        (∃ p ∈ group, p.2.role ≠ Role.client ∧
          a = Action.emit p.1 (Ev.onlineUsersFull users rid))) ∧
    (∀ (st : Net) (sid : String) (user : SocketUser) (rid : String)
        (room : CacheRoom),
      user.role = Role.client →
      cacheGet st.cache rid = some room →
      room.users.contains user.userId = true →
      ∃ tail, (joinRoomHandler st sid user rid).2 =
        Action.emit sid (Ev.joinConfirmation rid room.roomName []) :: tail) ∧
    (∀ (cache : RoomsCache) (typerSid : String) (user : SocketUser)
        (group : List (String × SocketUser)) (rid uid : String),
      ∀ a ∈ stopTypingHandler cache typerSid user group rid uid,
        ∃ p ∈ group, p.1 ≠ typerSid ∧
          a = Action.emit p.1 (Ev.userStoppedTyping user.userId rid)) := by
  refine ⟨?_, ?_, ?_, ?_⟩
  · intro cache typerSid user group rid uid a ha
    by_cases huid : (user.userId != uid) = true
    · simp [typingHandler, huid] at ha
    · by_cases hrid : (rid == "" || !(isUserInRoom cache rid user.userId)) = true
      · simp [typingHandler, huid, hrid] at ha
      · simp only [typingHandler, huid, hrid, if_false, Bool.false_eq_true] at ha
        rcases List.mem_map.mp ha with ⟨p, hpf, rfl⟩
        rcases List.mem_filter.mp hpf with ⟨hp, hcond⟩
        rcases (Bool.and_eq_true _ _).mp hcond with ⟨h1, h2⟩
        exact ⟨p, hp, bne_iff_ne.mp h1, by simpa using bne_iff_ne.mp h2, rfl⟩
  · intro group users rid a ha
    rcases List.mem_map.mp ha with ⟨p, hp, rfl⟩
    by_cases hr : p.2.role = Role.client
    · left
      exact ⟨p, hp, hr, by simp [hr]⟩
    · right
      refine ⟨p, hp, hr, ?_⟩
      have : (p.2.role == Role.client) = false := by
        simpa using hr
      simp [this]
  · intro st sid user rid room hrole hc hm
    simp only [joinRoomHandler, hc, hm, Bool.not_true, Bool.false_eq_true,
      if_false, hrole]
    exact ⟨_, rfl⟩
  · intro cache typerSid user group rid uid a ha
    by_cases huid : (user.userId != uid) = true
    · simp [stopTypingHandler, huid] at ha
    · by_cases hrid : (rid == "" || !(isUserInRoom cache rid user.userId)) = true
      · simp [stopTypingHandler, huid, hrid] at ha
      · simp only [stopTypingHandler, huid, hrid, if_false,
          Bool.false_eq_true] at ha
        rcases List.mem_map.mp ha with ⟨p, hpf, rfl⟩
        rcases List.mem_filter.mp hpf with ⟨hp, hcond⟩
        exact ⟨p, hp, bne_iff_ne.mp hcond, rfl⟩

/-- C3 amended witness: at a concrete fan-out to alice's and carol's
sockets, carol's client socket receives either a count-only update (as
a client) or a full list (as staff) — and by role it is the count. -/
theorem typing_presence_role_shaping_witness :
    (∃ p ∈ group1, p.2.role = Role.client ∧
      Action.emit "sidC" (Ev.onlineUsersCount 1 "room_1_ab") =
        Action.emit p.1 (Ev.onlineUsersCount 1 "room_1_ab")) ∨
    (∃ p ∈ group1, p.2.role ≠ Role.client ∧
      Action.emit "sidC" (Ev.onlineUsersCount 1 "room_1_ab") =
        Action.emit p.1 (Ev.onlineUsersFull [PresEntry.mk "carol" "Carol"]
          "room_1_ab")) :=
  typing_presence_role_shaping.2.1 group1 [PresEntry.mk "carol" "Carol"]
    "room_1_ab" (Action.emit "sidC" (Ev.onlineUsersCount 1 "room_1_ab"))
    (by decide)

/-! ## C5 amended -/

/-- A successful resolution carries exactly the role of the credential
cookie it was resolved for. -/
theorem resolveWithToken_role {db : Db} {r : Role} {d : JwtPayload}
    {u : SocketUser} (h : resolveWithToken db r d = Except.ok u) :
    u.role = r := by
  unfold resolveWithToken at h
  repeat' split at h
  all_goals cases h
  all_goals rfl

/-- Resolution only reads the single collection of the chosen role. -/
theorem resolveWithToken_congr {db1 db2 : Db} {r : Role}
    (h : collectionOf db1 r = collectionOf db2 r) (d : JwtPayload) :
    resolveWithToken db1 r d = resolveWithToken db2 r d := by
  unfold resolveWithToken
  rw [h]

/-- C5 amended: the connection-time resolver picks one credential by the
fixed cookie priority admintoken (staff), then token (members), then
clientToken (clients); it derives the bound role from that choice; and
it looks the identifier up only in that role's collection — the result
is unchanged by any modification of the other two collections, so there
is no members-then-staff-then-clients fallback. -/
theorem connectAuth_cookie_priority_single_collection :
    (∀ (db : Db) (jar : CookieJar) (t : Token) (u : SocketUser),
      jar.admintoken = some t →
      socketAuth db (some jar) = Except.ok u → u.role = Role.admin) ∧
    (∀ (db1 db2 : Db) (jar : CookieJar) (t : Token),
      jar.admintoken = some t → db1.admins = db2.admins →
      socketAuth db1 (some jar) = socketAuth db2 (some jar)) ∧
    (∀ (db : Db) (jar : CookieJar) (t : Token) (u : SocketUser),
      jar.admintoken = none → jar.token = some t →
      socketAuth db (some jar) = Except.ok u → u.role = Role.user) ∧
    (∀ (db1 db2 : Db) (jar : CookieJar) (t : Token),
      jar.admintoken = none → jar.token = some t → db1.users = db2.users →
      socketAuth db1 (some jar) = socketAuth db2 (some jar)) ∧
    (∀ (db : Db) (jar : CookieJar) (t : Token) (u : SocketUser),
      jar.admintoken = none → jar.token = none → jar.clientToken = some t →
      socketAuth db (some jar) = Except.ok u → u.role = Role.client) ∧
    (∀ (db1 db2 : Db) (jar : CookieJar) (t : Token),
      jar.admintoken = none → jar.token = none → jar.clientToken = some t →
      db1.clients = db2.clients →
      socketAuth db1 (some jar) = socketAuth db2 (some jar)) := by
  refine ⟨?_, ?_, ?_, ?_, ?_, ?_⟩
  · intro db jar t u hadm hok
    have hfc : firstCookie jar = some (t, Role.admin) := by
      simp [firstCookie, hadm]
    rw [socketAuth, hfc] at hok
    cases t with
    | invalid => cases hok
    | valid d => exact resolveWithToken_role hok
  · intro db1 db2 jar t hadm heq
    have hfc : firstCookie jar = some (t, Role.admin) := by
      simp [firstCookie, hadm]
    rw [socketAuth, socketAuth, hfc]
    cases t with
    | invalid => rfl
    | valid d => exact resolveWithToken_congr (by simp [collectionOf, heq]) d
  · intro db jar t u hadm htok hok
    have hfc : firstCookie jar = some (t, Role.user) := by
      simp [firstCookie, hadm, htok]
    rw [socketAuth, hfc] at hok
    cases t with
    | invalid => cases hok
    | valid d => exact resolveWithToken_role hok
  · intro db1 db2 jar t hadm htok heq
    have hfc : firstCookie jar = some (t, Role.user) := by
      simp [firstCookie, hadm, htok]
    rw [socketAuth, socketAuth, hfc]
    cases t with
    | invalid => rfl
    | valid d => exact resolveWithToken_congr (by simp [collectionOf, heq]) d
  · intro db jar t u hadm htok hcli hok
    have hfc : firstCookie jar = some (t, Role.client) := by
      simp [firstCookie, hadm, htok, hcli]
    rw [socketAuth, hfc] at hok
    cases t with
    | invalid => cases hok
    | valid d => exact resolveWithToken_role hok
  · intro db1 db2 jar t hadm htok hcli heq
    have hfc : firstCookie jar = some (t, Role.client) := by
      simp [firstCookie, hadm, htok, hcli]
    rw [socketAuth, socketAuth, hfc]
    cases t with
    | invalid => rfl
    | valid d => exact resolveWithToken_congr (by simp [collectionOf, heq]) d

/-- C5 amended witness: at the concrete dual-cookie handshake, the bound
identity has role admin — the staff cookie won the priority even though
the identifier also exists in the members collection. -/
theorem connectAuth_cookie_priority_witness : boundZ.role = Role.admin :=
  connectAuth_cookie_priority_single_collection.1 dbC5 jarC5
    (Token.valid payloadZ) boundZ rfl rfl

/-! ## C7 amended -/

/-- C7 amended: a successful edit by the author stores the trimmed new
text as the body and sets the edit timestamp, leaving the author id,
the room id, the creation timestamp and every other field of the
document unchanged (the updated document is the found one with only
message and updatedAt replaced), and leaves every non-matching message
in the store; an editor other than the original author is refused with
an errorMessage and the store is unchanged. -/
theorem edit_updates_body_only_author
    : (∀ (db : Db) (sid : String) (user : SocketUser)
        (group : List (String × SocketUser)) (mid new room : String) (now : Nat)
        (m : MessageDoc),
      objectIdIsValid mid = true →
      (jsTrim new == "") = false →
      (room == "") = false →
      db.messages.find? (fun x => x.oid == mid && x.roomId == room) = some m →
      m.userId = user.userId →
      ((handleEditMessage db sid user group mid new room now).db.messages.find?
          (fun x => x.oid == mid && x.roomId == room)) =
        some { m with message := jsTrim new, updatedAt := some now } ∧
      (∀ x ∈ db.messages, (x.oid == mid && x.roomId == room) = false →
        x ∈ (handleEditMessage db sid user group mid new room now).db.messages)) ∧
    (∀ (db : Db) (sid : String) (user : SocketUser)
        (group : List (String × SocketUser)) (mid new room : String) (now : Nat)
        (m : MessageDoc),
      objectIdIsValid mid = true →
      (jsTrim new == "") = false →
      (room == "") = false →
      db.messages.find? (fun x => x.oid == mid && x.roomId == room) = some m →
      m.userId ≠ user.userId →
      (handleEditMessage db sid user group mid new room now).db = db ∧
      Ev.errorMessage "You are not authorized to edit this message" ∈
        deliveredTo (handleEditMessage db sid user group mid new room now).trace
          sid) := by
  constructor
  · intro db sid user group mid new room now m hid hv hr hfind hauth
    have hne : (m.userId != user.userId) = false := by simp [hauth]
    have hupd : (handleEditMessage db sid user group mid new room now).db.messages =
        db.messages.map (fun x =>
          if x.oid == mid && x.roomId == room then
            { x with message := jsTrim new, updatedAt := some now }
          else x) := by
      simp [handleEditMessage, hid, hv, hr, hfind, hne]
    have hg : ∀ x : MessageDoc,
        ((fun y : MessageDoc => y.oid == mid && y.roomId == room)
          (if x.oid == mid && x.roomId == room then
            { x with message := jsTrim new, updatedAt := some now }
          else x)) = (x.oid == mid && x.roomId == room) := by
      intro x
      by_cases hx : (x.oid == mid && x.roomId == room) = true <;> simp [hx]
    have hm : (m.oid == mid && m.roomId == room) = true := by
      have := List.find?_some hfind
      simpa using this
    constructor
    · rw [hupd, find?_map_of_pred_pres _ _ _ hg, hfind, Option.map_some',
        if_pos hm]
    · intro x hx hpx
      rw [hupd]
      exact List.mem_map.mpr ⟨x, hx, by simp [hpx]⟩
  · intro db sid user group mid new room now m hid hv hr hfind hauth
    have hne : (m.userId != user.userId) = true := bne_iff_ne.mpr hauth
    constructor
    · simp [handleEditMessage, hid, hv, hr, hfind, hne]
    · rw [mem_deliveredTo]
      simp [handleEditMessage, hid, hv, hr, hfind, hne]

/-- C7 amended witness: alice's concrete edit with the new text " hi "
stores the trimmed body "hi" with the edit timestamp set and every
other field unchanged. -/
theorem edit_updates_body_only_author_witness :
    ((handleEditMessage dbC7 "sidA" aliceU group1 zid " hi " "room_1_ab"
        9).db.messages.find?
      (fun x => x.oid == zid && x.roomId == "room_1_ab")) =
    some { editMsg with message := "hi", updatedAt := some 9 } := by
  have h := (edit_updates_body_only_author.1 dbC7 "sidA" aliceU group1 zid
    " hi " "room_1_ab" 9 editMsg (by decide) (by decide) (by decide)
    (by decide) rfl).1
  have htrim : jsTrim " hi " = "hi" := by decide
  rw [htrim] at h
  exact h

/-! ## C10 amended -/

/-- Whether an event is an onlineUsersUpdate (full or count form). -/
def isOnlineUpdateEv (e : Ev) : Bool :=
  match e with
  | Ev.onlineUsersFull _ _ => true
  | Ev.onlineUsersCount _ _ => true
  | _ => false

/-- Deleting one user from a room's presence map filters that user out of
that room's entry list. -/
theorem presGet_presDeleteUser (st : Net) (rid uid : String) :
    presGet (presDeleteUser st rid uid) rid =
      (presGet st rid).map (fun es => es.filter (fun e => e.userId != uid)) := by
  unfold presGet presDeleteUser
  have hg : ∀ p : String × List PresEntry,
      ((fun q : String × List PresEntry => q.1 == rid)
        (if p.1 == rid then (p.1, p.2.filter (fun e => e.userId != uid))
         else p)) = (p.1 == rid) := by
    intro p
    by_cases hp : (p.1 == rid) = true <;> simp [hp]
  rw [find?_map_of_pred_pres _ _ _ hg]
  rcases hf : st.presence.find? (fun p => p.1 == rid) with _ | p
  · rw [hf]
    rfl
  · rw [hf]
    have hp : (p.1 == rid) = true := by
      have := List.find?_some hf
      simpa using this
    simp only [Option.map_some']
    rw [if_pos hp]

/-- Everything surviving a filter satisfies the filtering predicate. -/
theorem filter_all_self {α : Type} (l : List α) (q : α → Bool) :
    (l.filter q).all q = true := by
  induction l with
  | nil => rfl
  | cons a t ih =>
    by_cases ha : q a = true <;> simp [List.filter_cons, ha, ih]

/-- Every run of handleLeaveRoom either rejects — leaving the store
unchanged and emitting exactly one errorMessage to the requester — or
succeeds. -/
theorem handleLeaveRoomCtrl_cases (db : Db) (sid : String) (user : SocketUser)
    (group : List (String × SocketUser)) (roomId : String) :
    ((handleLeaveRoomCtrl db sid user group roomId).success = false ∧
     (handleLeaveRoomCtrl db sid user group roomId).db = db ∧
     ∃ msg, (handleLeaveRoomCtrl db sid user group roomId).trace =
       [Action.emit sid (Ev.errorMessage msg)]) ∨
    (handleLeaveRoomCtrl db sid user group roomId).success = true := by
  unfold handleLeaveRoomCtrl
  repeat' split
  all_goals first
    | (right; rfl)
    | (left; exact ⟨rfl, rfl, _, rfl⟩)

/-- C10 amended: a rejected leaveRoom is not atomic on its in-memory
side-effects. Whenever the controller rejects the request, the
persisted store is unchanged and an errorMessage reaches the requester;
after the handler runs, the requester is in no entry of the room's
presence map; if the room record is absent from persistence, the whole
presence map of the room is discarded and no onlineUsersUpdate is
emitted at all; while if the room record exists and the room had a
presence map, every socket of the room's transport group is sent an
onlineUsersUpdate even though the request was refused. -/
theorem leaveRoom_rejected_not_atomic (st : Net) (db : Db) (sid : String)
    (user : SocketUser) (roomId : String)
    (hrej : (handleLeaveRoomCtrl db sid user (groupOf st roomId)
      roomId).success = false) :
    (leaveRoomHandler st db sid user roomId).db = db ∧
    ((leaveRoomHandler st db sid user roomId).trace.any
      (fun a => isErrorTo a sid)) = true ∧
    (((presGet (leaveRoomHandler st db sid user roomId).st roomId).getD []).all
      (fun e => e.userId != user.userId)) = true ∧
    (findRoom db roomId = none →
      presGet (leaveRoomHandler st db sid user roomId).st roomId = none ∧
      ((leaveRoomHandler st db sid user roomId).trace.any isOnlineUpdate) =
        false) ∧
    (∀ l, findRoom db roomId ≠ none → presGet st roomId = some l →
      ∀ p ∈ groupOf (leaveRoomHandler st db sid user roomId).st roomId,
        ∃ e ∈ deliveredTo (leaveRoomHandler st db sid user roomId).trace p.1,
          isOnlineUpdateEv e = true) := by
  obtain ⟨-, hdb, msg, htrc⟩ | hsucc :=
    handleLeaveRoomCtrl_cases db sid user (groupOf st roomId) roomId
  swap
  · rw [hsucc] at hrej
    cases hrej
  rcases hfr : findRoom db roomId with _ | r
  · have hout : leaveRoomHandler st db sid user roomId =
        { st := presDeleteRoom
            { st with cache := cacheDelete st.cache roomId } roomId
          db := db
          trace := [Action.emit sid (Ev.errorMessage msg)] } := by
      simp only [leaveRoomHandler, hrej, hdb, htrc, Bool.false_eq_true,
        if_false, hfr, presGet_presDeleteRoom]
    rw [hout]
    refine ⟨rfl, by simp [isErrorTo], ?_, ?_, ?_⟩
    · rw [presGet_presDeleteRoom]
      rfl
    · intro _
      exact ⟨presGet_presDeleteRoom _ _, by simp [isOnlineUpdate]⟩
    · intro l hne _
      exact absurd rfl hne
  · have hpres : presGet (cacheRefresh st roomId r) roomId =
        presGet st roomId := rfl
    rcases hpg : presGet st roomId with _ | l
    · have hout : leaveRoomHandler st db sid user roomId =
          { st := cacheRefresh st roomId r
            db := db
            trace := [Action.emit sid (Ev.errorMessage msg)] } := by
        simp only [leaveRoomHandler, hrej, hdb, htrc, Bool.false_eq_true,
          if_false, hfr, hpres, hpg]
      rw [hout]
      refine ⟨rfl, by simp [isErrorTo], ?_, ?_, ?_⟩
      · rw [hpres, hpg]
        rfl
      · intro hcontra
        cases hcontra
      · intro l2 _ hpg2
        cases hpg2
    · have hout : leaveRoomHandler st db sid user roomId =
          { st := presDeleteUser (cacheRefresh st roomId r) roomId user.userId
            db := db
            trace := Action.emit sid (Ev.errorMessage msg) ::
              broadcastOnlineUsers
                (groupOf (presDeleteUser (cacheRefresh st roomId r) roomId
                  user.userId) roomId)
                ((presGet (presDeleteUser (cacheRefresh st roomId r) roomId
                  user.userId) roomId).getD []) roomId } := by
        simp only [leaveRoomHandler, hrej, hdb, htrc, Bool.false_eq_true,
          if_false, hfr, hpres, hpg]
        rfl
      rw [hout]
      refine ⟨rfl, by simp [isErrorTo], ?_, ?_, ?_⟩
      · rw [presGet_presDeleteUser, hpres, hpg]
        simpa using filter_all_self l (fun e => e.userId != user.userId)
      · intro hcontra
        cases hcontra
      · intro l2 _ hpg2 p hp
        by_cases hr : (p.2.role == Role.client) = true
        · refine ⟨Ev.onlineUsersCount ((presGet (presDeleteUser
              (cacheRefresh st roomId r) roomId user.userId) roomId).getD
              []).length roomId, ?_, rfl⟩
          rw [mem_deliveredTo]
          apply List.mem_cons_of_mem
          unfold broadcastOnlineUsers
          exact List.mem_map.mpr ⟨p, hp, by simp [hr]⟩
        · refine ⟨Ev.onlineUsersFull ((presGet (presDeleteUser
              (cacheRefresh st roomId r) roomId user.userId) roomId).getD
              []) roomId, ?_, rfl⟩
          rw [mem_deliveredTo]
          apply List.mem_cons_of_mem
          unfold broadcastOnlineUsers
          exact List.mem_map.mpr ⟨p, hp, by simp [hr]⟩

/-! ## C10 amended witness -/

/-- The leave fixture with a live presence map holding alice and carol. -/
def netL2 : Net :=
  { netL with presence :=
      [("room_1_ab", [PresEntry.mk "alice" "Alice", PresEntry.mk "carol" "Carol"])] }

/-- C10 amended witness: at the creator's concrete rejected leaveRoom on
a room with a live presence map, the store is unchanged and carol's
socket still receives an onlineUsersUpdate. -/
theorem leaveRoom_rejected_not_atomic_witness :
    (leaveRoomHandler netL2 dbL "sidA" aliceU "room_1_ab").db = dbL ∧
    ∃ e ∈ deliveredTo
        (leaveRoomHandler netL2 dbL "sidA" aliceU "room_1_ab").trace "sidC",
      isOnlineUpdateEv e = true := by
  have h := leaveRoom_rejected_not_atomic netL2 dbL "sidA" aliceU "room_1_ab"
    (by decide)
  refine ⟨h.1, ?_⟩
  exact h.2.2.2.2 [PresEntry.mk "alice" "Alice", PresEntry.mk "carol" "Carol"]
    (by decide) (by decide) ("sidC", carolC) (by decide)

/-! ## C4 amended -/

/-- C4 amended: the room-deletion cascade is fail-fast, not best-effort.
In every run, the message-deletion and room-record-deletion steps are
never attempted, because the file-purge step — invoked with the JWT
payload where the helper expects a single { user, roomId } object —
always throws first; whenever the file-purge step is reached, the
request ends in a 500 response with no per-step counts and the document
store is unchanged (only S3 voice objects were already purged). -/
theorem deleteRoom_cascade_fail_fast (req : HttpReq) (db : Db) (s3 : S3)
    (g : List (String × SocketUser)) :
    CascadeStep.messageDelete ∉ (handleDeleteRoom req db s3 g).steps ∧
    CascadeStep.roomDelete ∉ (handleDeleteRoom req db s3 g).steps ∧
    (CascadeStep.filePurge ∈ (handleDeleteRoom req db s3 g).steps →
      (handleDeleteRoom req db s3 g).outcome = DrOutcome.resp 500
        (DrBody.err "User authentication required: missing userId or companyId") ∧
      (handleDeleteRoom req db s3 g).db = db) := by
  unfold handleDeleteRoom
  repeat' split
  all_goals simp_all [deleteS3FilesByRoom]

/-- C4 amended witness: bob's concrete authorized deleteRoom reaches the
file-purge step and ends in the 500 with the document store
unchanged. -/
theorem deleteRoom_cascade_fail_fast_witness :
    (handleDeleteRoom reqBob dbC1 s3C1 []).outcome = DrOutcome.resp 500
      (DrBody.err "User authentication required: missing userId or companyId") ∧
    (handleDeleteRoom reqBob dbC1 s3C1 []).db = dbC1 :=
  (deleteRoom_cascade_fail_fast reqBob dbC1 s3C1 []).2.2 (by decide)

/-! ## C1 amended -/

/-- An HTTP deleteRoom request authenticated by a user-token cookie with
verified payload d, targeting room rid. -/
def userDeleteReq (d : JwtPayload) (rid : String) : HttpReq :=
  { headers := some { cookie := some { token := some (Token.valid d) } }
    params := { roomId := some rid } }

/-- C1 amended: deleteRoom authorization never consults the room's
creator. A requester whose token position is outside CEO / Manager / HR
is rejected with 403 Forbidden, and one with an allowed position whose
company does not match the room's is rejected with 403 as well, both
with the whole state untouched. A requester passing both checks —
creator or not — starts the cascade, which never completes: when the
voice-purge step goes through (the room id is non-blank, the token
carries a userId and a companyId, and for an explicit room_ id the
requester is a member), the room's S3 voice objects are deleted and the
file-purge step then always throws — it is invoked with the JWT payload
where it expects a single { user, roomId } object — ending in a 500
with the room record and the messages intact but the voice attachments
gone; when the voice-purge step itself throws (for example a permitted
requester who is not a member of the explicit room), the request ends
in a 500 with everything, voice attachments included, untouched. -/
theorem deleteRoom_position_company_auth :
    (∀ (db : Db) (s3 : S3) (g : List (String × SocketUser)) (d : JwtPayload)
        (rid : String),
      positionAllowed d.position = false →
      handleDeleteRoom (userDeleteReq d rid) db s3 g =
        { outcome := DrOutcome.resp 403
            (DrBody.err "Insufficient position permissions")
          db := db, s3 := s3, steps := [], emits := [] }) ∧
    (∀ (db : Db) (s3 : S3) (g : List (String × SocketUser)) (d : JwtPayload)
        (rid : String) (room : RoomDoc),
      positionAllowed d.position = true →
      findRoom db rid = some room →
      room.companyId ≠ d.companyId.getD "undefined" →
      handleDeleteRoom (userDeleteReq d rid) db s3 g =
        { outcome := DrOutcome.resp 403
            (DrBody.err "Not authorized for this company")
          db := db, s3 := s3, steps := [], emits := [] }) ∧
    (∀ (db : Db) (s3 : S3) (g : List (String × SocketUser)) (d : JwtPayload)
        (rid uid cid : String) (room : RoomDoc),
      positionAllowed d.position = true →
      d.userId = some uid → uid ≠ "" →
      d.companyId = some cid → cid ≠ "" →
      (jsTrim rid == "") = false →
      findRoom db rid = some room →
      room.companyId = cid →
      (strStartsWith rid "room_" = false ∨ room.users.contains uid = true) →
      handleDeleteRoom (userDeleteReq d rid) db s3 g =
        { outcome := DrOutcome.resp 500
            (DrBody.err "User authentication required: missing userId or companyId")
          db := db
          s3 := s3.filter (fun k => !((roomVoiceKeys db rid cid).contains k))
          steps := [CascadeStep.voicePurge, CascadeStep.filePurge]
          emits := [] }) ∧
    (∀ (db : Db) (s3 : S3) (g : List (String × SocketUser)) (d : JwtPayload)
        (rid : String) (room : RoomDoc) (e : String),
      positionAllowed d.position = true →
      findRoom db rid = some room →
      room.companyId = d.companyId.getD "undefined" →
      deleteS3VoicesByRoom d.userId d.companyId rid db s3 = Except.error e →
      handleDeleteRoom (userDeleteReq d rid) db s3 g =
        { outcome := DrOutcome.resp 500 (DrBody.err e)
          db := db, s3 := s3, steps := [CascadeStep.voicePurge]
          emits := [] }) := by
  refine ⟨?_, ?_, ?_, ?_⟩
  · intro db s3 g d rid hpos
    simp [handleDeleteRoom, userDeleteReq, hpos]
  · intro db s3 g d rid room hpos hfind hne
    have hb : (room.companyId != d.companyId.getD "undefined") = true :=
      bne_iff_ne.mpr hne
    simp [handleDeleteRoom, userDeleteReq, hpos, hfind, hb]
  · intro db s3 g d rid uid cid room hpos huid huidne hcid hcidne hridne hfind
      hcomp hmem
    have hvoice : deleteS3VoicesByRoom d.userId d.companyId rid db s3 =
        Except.ok ((roomVoiceKeys db rid cid).length,
          s3.filter (fun k => !((roomVoiceKeys db rid cid).contains k))) := by
      have h5 : ¬(strStartsWith rid "room_" = true ∧ uid ∉ room.users) := by
        rcases hmem with h | h
        · intro hcon
          rw [h] at hcon
          cases hcon.1
        · intro hcon
          exact hcon.2 (by simpa using h)
      simp [deleteS3VoicesByRoom, jsFalsyStr, huid, hcid, huidne, hcidne,
        hridne, hfind, hcomp, h5]
    have hfile : ∀ s3x : S3, deleteS3FilesByRoom { user := none, roomId := none }
        db s3x g =
        Except.error "User authentication required: missing userId or companyId" :=
      fun _ => rfl
    have hcomp2 : (room.companyId != d.companyId.getD "undefined") = false := by
      rw [hcid]
      simp [hcomp]
    simp [handleDeleteRoom, userDeleteReq, hpos, hfind, hcomp2, hvoice, hfile]
  · intro db s3 g d rid room e hpos hfind hcomp hverr
    have hcomp2 : (room.companyId != d.companyId.getD "undefined") = false := by
      simp [hcomp]
    simp [handleDeleteRoom, userDeleteReq, hpos, hfind, hcomp2, hverr]

/-- C1 amended witness: bob — CEO, same company, member, not the
creator — is not rejected with Forbidden: his concrete request ends in
the 500 after the voice purge emptied the room's S3 voice objects,
with rooms and messages intact. -/
theorem deleteRoom_position_company_auth_witness :
    handleDeleteRoom (userDeleteReq payloadBob "room_1_ab") dbC1 s3C1 [] =
      { outcome := DrOutcome.resp 500
          (DrBody.err "User authentication required: missing userId or companyId")
        db := dbC1
        s3 := s3C1.filter
          (fun k => !((roomVoiceKeys dbC1 "room_1_ab" "c1").contains k))
        steps := [CascadeStep.voicePurge, CascadeStep.filePurge]
        emits := [] } :=
  deleteRoom_position_company_auth.2.2.1 dbC1 s3C1 [] payloadBob "room_1_ab"
    "bob" "c1" roomA (by decide) rfl (by decide) rfl (by decide) (by decide)
    (by decide) rfl (Or.inr (by decide))

end TmChat
